import Mathlib

/-!
Verification development for a Lian Li fan/LED hub controller.

The source program (Rust, `src/main.rs`) is shallowly embedded below.
Machine integers (`u8`, `u16`) are modelled by `ℕ`, with explicit `% 256`
where the source type could wrap; IEEE binary32 (`f32`) values are modelled
by `ℚ` together with an explicit rounding function `fl32` (round to nearest,
ties to even, 24-bit significand, unbounded exponent range — faithful for
the magnitudes reached by this program, which never overflow or reach the
subnormal range in the quantities the claims touch); each f32 arithmetic
operation of the source is the exact rational operation followed by `fl32`,
matching IEEE correct rounding.  Rust strings are modelled as `List Char`
(faithful for ASCII data; the source indexes UTF-8 bytes).  Fallible
functions return `Except`; device I/O is modelled by the `Action` trace a
run would send to the HID transport, with `sleepMs` entries for the fixed
settle delays.
-/

namespace LianLi

/-! ## Constants (src/main.rs lines 14-22) -/

def FAN_COUNT : ℕ := 4

def COLOR_BUFFER_SIZE : ℕ := 353

def LEDS_PER_FAN : ℕ := 117

def REPORT_ID : ℕ := 0xe0

def SET_COLOR_CMD_BASE : ℕ := 0x30

def SET_SPEED_CMD : ℕ := 0x10

/-! ## Binary32 rounding model -/

/-- Round a rational to the nearest integer, ties to even (IEEE default
rounding applied to an exact significand). -/
def rhe (m : ℚ) : ℤ :=
  if Int.fract m < 1 / 2 then ⌊m⌋
  else if 1 / 2 < Int.fract m then ⌊m⌋ + 1
  else if Even ⌊m⌋ then ⌊m⌋ else ⌊m⌋ + 1

/-- Round a positive rational to 24 significant binary digits
(round to nearest, ties to even). -/
def flPos (q : ℚ) : ℚ :=
  (rhe (q * 2 ^ ((23 : ℤ) - Int.log 2 q)) : ℚ) * 2 ^ (Int.log 2 q - 23)

/-- The value an IEEE binary32 operation returns for exact result `q`:
`q` rounded to 24 significant bits (exponent range not modelled; the
program's quantities stay far from overflow and underflow). -/
def fl32 (q : ℚ) : ℚ :=
  if 0 < q then flPos q else if q < 0 then -flPos (-q) else 0

/-- Rust `f32::round`: round half away from zero. -/
def rustRound (q : ℚ) : ℤ :=
  if 0 ≤ q then round q else -round (-q)

/-- Rust `as u8` applied to an f32 value: truncate toward zero and
saturate to `[0, 255]`. -/
def f32AsU8 (q : ℚ) : ℕ := min 255 ⌊q⌋.toNat

/-- Rust `as u8` applied to an integer rounding result: saturate to 255. -/
def intAsU8 (z : ℤ) : ℕ := min 255 z.toNat

/-- Rust `as u16` applied to an integer rounding result: saturate to 65535. -/
def intAsU16 (z : ℤ) : ℕ := min 65535 z.toNat

/-! ## Data model (src/main.rs lines 46-145) -/

inductive FanMode where
  | Fixed
  | QuietCpu
  | QuietGpu
  deriving DecidableEq, Repr

structure ModelConfig where
  mode_byte : ℕ
  sync_byte : ℕ
  min_rpm : ℕ
  max_rpm : ℕ
  deriving DecidableEq, Repr

/-- Calibration lookup (src/main.rs `get_model_config`, lines 130-139). -/
def get_model_config (product_id : ℕ) : ModelConfig :=
  if product_id = 0xa100 ∨ product_id = 0x7750 then ⟨49, 48, 800, 1900⟩
  else if product_id = 0xa101 then ⟨66, 65, 800, 1900⟩
  else if product_id = 0xa102 then ⟨98, 97, 200, 2100⟩
  else if product_id = 0xa103 ∨ product_id = 0xa105 then ⟨98, 97, 250, 2000⟩
  else if product_id = 0xa104 then ⟨98, 97, 250, 2000⟩
  else ⟨49, 48, 800, 1900⟩

/-- Error taxonomy (src/main.rs `FanControlError`); variants whose payloads
are external library errors are collapsed to payload-free constructors. -/
inductive FanControlError where
  | DeviceNotFound
  | InvalidFan (fan : ℕ)
  | InvalidBrightness (brightness : ℚ)
  | InvalidSpeed (speed minRpm maxRpm : ℕ)
  | InvalidHexColor (s : List Char)
  deriving DecidableEq, Repr

/-- One observable interaction with the HID transport or the clock. -/
inductive Action where
  | write (bytes : List ℕ)
  | sendFeatureReport (bytes : List ℕ)
  | getFeatureReport
  | sleepMs (ms : ℕ)
  deriving DecidableEq, Repr

/-! ## Command encoder (src/main.rs lines 169-260) -/

/-- The five fixed init frames (src/main.rs lines 170-176). -/
def init_commands : List (List ℕ) :=
  [[REPORT_ID, 0x50, 0x01, 0x00, 0x00, 0x00, 0x00, 0x00, 0x00, 0x00, 0x00],
   [REPORT_ID, SET_SPEED_CMD, 0x32, 0x03, 0x00, 0x00, 0x00, 0x00, 0x00, 0x00, 0x00],
   [REPORT_ID, SET_SPEED_CMD, 0x32, 0x13, 0x00, 0x00, 0x00, 0x00, 0x00, 0x00, 0x00],
   [REPORT_ID, SET_SPEED_CMD, 0x32, 0x23, 0x00, 0x00, 0x00, 0x00, 0x00, 0x00, 0x00],
   [REPORT_ID, SET_SPEED_CMD, 0x32, 0x33, 0x00, 0x00, 0x00, 0x00, 0x00, 0x00, 0x00]]

/-- Action trace of `FanController::send_init` (src/main.rs lines 169-193):
each init frame is a feature report followed by a 100 ms settle delay, then
a best-effort feature-report read and a final delay. -/
def send_init : List Action :=
  (init_commands.map (fun c => [Action.sendFeatureReport c, Action.sleepMs 100])).flatten
    ++ [Action.getFeatureReport, Action.sleepMs 100]

/-- Channel scaling inside `set_fan_color` (src/main.rs lines 205-207):
`(channel as f32 * brightness_factor).min(255.0) as u8`. -/
def scaleChannel (c : ℕ) (factor : ℚ) : ℕ :=
  f32AsU8 (min (fl32 ((c : ℚ) * factor)) 255)

/-- Rust `Vec::resize(n, v)`: truncate or pad with `v` to length `n`. -/
def resizeList (l : List ℕ) (n : ℕ) (v : ℕ) : List ℕ :=
  l.take n ++ List.replicate (n - l.length) v

/-- The three confirmation frames sent after a color frame
(src/main.rs lines 219-223). -/
def confirm_cmds : List (List ℕ) :=
  [[REPORT_ID, SET_SPEED_CMD, 0x01, 0x00, 0x00, 0x00, 0x00, 0x00, 0x00, 0x00, 0x00],
   [REPORT_ID, 0x11, 0x01, 0x00, 0x00, 0x00, 0x00, 0x00, 0x00, 0x00, 0x00],
   [REPORT_ID, 0x60, 0x00, 0x01, 0x00, 0x00, 0x00, 0x00, 0x00, 0x00, 0x00]]

/-- `FanController::set_fan_color` (src/main.rs lines 195-231), as the
action trace it sends.  `brightness_factor` is the f32 quotient
`brightness / 100.0`; the 353-byte buffer is the 2-byte header, 117 copies
of the `(scaled_r, scaled_b, scaled_g)` triple, and a zero `resize`. -/
def set_fan_color (fan r g b : ℕ) (brightness : ℚ) :
    Except FanControlError (List Action) :=
  if FAN_COUNT ≤ fan then .error (.InvalidFan fan)
  else if brightness < 0 ∨ 100 < brightness then .error (.InvalidBrightness brightness)
  else
    let brightness_factor := fl32 (brightness / 100)
    let scaled_r := scaleChannel r brightness_factor
    let scaled_g := scaleChannel g brightness_factor
    let scaled_b := scaleChannel b brightness_factor
    let colors := [scaled_r, scaled_b, scaled_g]
    let buf := resizeList ([REPORT_ID, SET_COLOR_CMD_BASE + fan]
      ++ (List.replicate LEDS_PER_FAN colors).flatten) COLOR_BUFFER_SIZE 0x00
    .ok ([Action.write buf, Action.sleepMs 100]
      ++ (confirm_cmds.map (fun c => [Action.sendFeatureReport c, Action.sleepMs 50])).flatten)

/-- The speed byte computed inside `set_fan_speed` (src/main.rs lines
248-254): `1 + ((speed_value / speed_range * 254.0).round() as u8)`, with
u8 addition (hence `% 256`; unreachable for validated speeds). -/
def speed_byte (mc : ModelConfig) (speed : ℕ) : ℕ :=
  let speed_range : ℚ := ((mc.max_rpm - mc.min_rpm : ℕ) : ℚ)
  let speed_value : ℚ := ((speed - mc.min_rpm : ℕ) : ℚ)
  if 0 < speed_range then
    (1 + intAsU8 (rustRound (fl32 (fl32 (speed_value / speed_range) * 254)))) % 256
  else 1

/-- `FanController::set_fan_speed` (src/main.rs lines 233-260): validation,
then the manual-mode write (`channel_byte = 0x10 << fan`) and the speed
frame, each with its settle delay. -/
def set_fan_speed (fan speed : ℕ) (mc : ModelConfig) :
    Except FanControlError (List Action) :=
  if FAN_COUNT ≤ fan then .error (.InvalidFan fan)
  else if speed < mc.min_rpm ∨ mc.max_rpm < speed then
    .error (.InvalidSpeed speed mc.min_rpm mc.max_rpm)
  else
    let channel_byte := (0x10 * 2 ^ fan) % 256
    .ok [Action.write [REPORT_ID, SET_SPEED_CMD, mc.mode_byte, channel_byte],
         Action.sleepMs 200,
         Action.write [REPORT_ID, (fan + 32) % 256, 0x00, speed_byte mc speed],
         Action.sleepMs 100]

/-! ## Hex color parsing (src/main.rs lines 263-275) -/

/-- Value of one character as a base-16 digit (Rust digit recognition in
`from_str_radix`: `0-9`, `a-f`, `A-F`). -/
def hexDigit (c : Char) : Option ℕ :=
  if '0' ≤ c ∧ c ≤ '9' then some (c.toNat - 48)
  else if 'a' ≤ c ∧ c ≤ 'f' then some (c.toNat - 87)
  else if 'A' ≤ c ∧ c ≤ 'F' then some (c.toNat - 55)
  else none

/-- Digit-accumulation loop of `u8::from_str_radix(_, 16)`: checked
multiply-add in `u8`, failing on a non-digit or on overflow past 255. -/
def parseHexDigits (l : List Char) : Option ℕ :=
  l.foldl
    (fun acc c => acc.bind (fun a => (hexDigit c).bind (fun d =>
      if a * 16 + d ≤ 255 then some (a * 16 + d) else none)))
    (some 0)

/-- `u8::from_str_radix(s, 16)`: an optional leading `+` sign, then a
nonempty run of base-16 digits. -/
def fromStrRadix16 (s : List Char) : Option ℕ :=
  match s with
  | [] => none
  | '+' :: rest => if rest = [] then none else parseHexDigits rest
  | _ => parseHexDigits s

/-- `parse_hex_color` (src/main.rs lines 263-275): strip all leading `#`
(`trim_start_matches`), require length 6, parse the three 2-character
groups; every failure carries the stripped string. -/
def parse_hex_color (hex : List Char) : Except FanControlError (ℕ × ℕ × ℕ) :=
  let hex := hex.dropWhile (fun c => c = '#')
  if hex.length ≠ 6 then .error (.InvalidHexColor hex)
  else
    match fromStrRadix16 (hex.take 2), fromStrRadix16 ((hex.drop 2).take 2),
        fromStrRadix16 ((hex.drop 4).take 2) with
    | some r, some g, some b => .ok (r, g, b)
    | _, _, _ => .error (.InvalidHexColor hex)

/-! ## Temperature-to-RPM mapping (src/main.rs lines 277-288) -/

/-- `map_temp_to_rpm`: below 60 °C the calibrated minimum, above 95 °C the
maximum, in between the f32 linear interpolation
`min_rpm + (temp - 60) / 35 * (max_rpm - min_rpm)` rounded to the nearest
RPM (`.round() as u16`). -/
def map_temp_to_rpm (temp : ℚ) (min_rpm max_rpm : ℕ) : ℕ :=
  if temp ≤ 60 then min_rpm
  else if 95 ≤ temp then max_rpm
  else
    let temp_range : ℚ := 95 - 60
    let rpm_range : ℕ := max_rpm - min_rpm
    intAsU16 (rustRound (fl32 ((min_rpm : ℚ)
      + fl32 (fl32 (fl32 (temp - 60) / temp_range) * (rpm_range : ℚ)))))

/-! ## Configuration resolution (src/main.rs lines 60-128, 356-432) -/

/-- CLI arguments relevant to resolution (src/main.rs `Args`). -/
structure Args where
  red : ℕ
  green : ℕ
  blue : ℕ
  brightness : ℚ
  speed : ℕ
  mode : FanMode
  deriving DecidableEq, Repr

structure GlobalConfig where
  color : Option (List Char)
  red : Option ℕ
  green : Option ℕ
  blue : Option ℕ
  brightness : Option ℚ
  speed : Option ℕ
  mode : Option FanMode
  log_level : Option (List Char)
  deriving DecidableEq, Repr

structure ZoneConfig where
  enabled : Option Bool
  color : Option (List Char)
  red : Option ℕ
  green : Option ℕ
  blue : Option ℕ
  brightness : Option ℚ
  speed : Option ℕ
  mode : Option FanMode
  deriving DecidableEq, Repr

structure Config where
  global : Option GlobalConfig
  zone_0 : Option ZoneConfig
  zone_1 : Option ZoneConfig
  zone_2 : Option ZoneConfig
  zone_3 : Option ZoneConfig
  deriving DecidableEq, Repr

structure EffectiveZoneSettings where
  r : ℕ
  g : ℕ
  b : ℕ
  brightness : ℚ
  speed : ℕ
  mode : FanMode
  deriving DecidableEq, Repr

/-- Global/CLI tail of `get_rgb` (src/main.rs lines 396-406): global hex if
it parses, else the complete global triple, else the CLI triple. -/
def get_rgb_fallback (global_config : Option GlobalConfig) (args : Args) :
    ℕ × ℕ × ℕ :=
  match global_config with
  | some global =>
    match global.color.map parse_hex_color with
    | some (.ok rgb) => rgb
    | _ =>
      match global.red, global.green, global.blue with
      | some r, some g, some b => (r, g, b)
      | _, _, _ => (args.red, args.green, args.blue)
  | none => (args.red, args.green, args.blue)

/-- `get_rgb` (src/main.rs lines 381-407): zone hex if it parses, else the
complete zone triple, else the global/CLI fallback.  A present but
unparsable hex string is skipped (`if let Ok`), not an error. -/
def get_rgb (zone_config : Option ZoneConfig) (global_config : Option GlobalConfig)
    (args : Args) : ℕ × ℕ × ℕ :=
  match zone_config with
  | some zone =>
    match zone.color.map parse_hex_color with
    | some (.ok rgb) => rgb
    | _ =>
      match zone.red, zone.green, zone.blue with
      | some r, some g, some b => (r, g, b)
      | _, _, _ => get_rgb_fallback global_config args
  | none => get_rgb_fallback global_config args

/-- `get_field` (src/main.rs lines 409-422):
`zone.and_then(f).or_else(global.and_then(g)).unwrap_or(default)`. -/
def get_field {T : Type} (zone_config : Option ZoneConfig)
    (global_config : Option GlobalConfig) (default : T)
    (zone_fn : ZoneConfig → Option T) (global_fn : GlobalConfig → Option T) : T :=
  ((zone_config.bind zone_fn).orElse
    (fun _ => global_config.bind global_fn)).getD default

/-- `get_effective_settings` (src/main.rs lines 356-379). -/
def get_effective_settings (zone_config : Option ZoneConfig)
    (global_config : Option GlobalConfig) (args : Args)
    (model_config : ModelConfig) (_zone_num : ℕ) : EffectiveZoneSettings :=
  let enabled := (zone_config.bind (fun z => z.enabled)).getD true
  if enabled = false then
    { r := 0, g := 0, b := 0, brightness := 0,
      speed := model_config.min_rpm, mode := FanMode.Fixed }
  else
    let rgb := get_rgb zone_config global_config args
    { r := rgb.1, g := rgb.2.1, b := rgb.2.2,
      brightness := get_field zone_config global_config args.brightness
        (fun z => z.brightness) (fun g => g.brightness),
      speed := get_field zone_config global_config args.speed
        (fun z => z.speed) (fun g => g.speed),
      mode := get_field zone_config global_config args.mode
        (fun z => z.mode) (fun g => g.mode) }

/-- `get_zone_config` (src/main.rs lines 424-432). -/
def get_zone_config (config : Option Config) (zone_num : ℕ) : Option ZoneConfig :=
  config.bind (fun c =>
    if zone_num = 0 then c.zone_0
    else if zone_num = 1 then c.zone_1
    else if zone_num = 2 then c.zone_2
    else if zone_num = 3 then c.zone_3
    else none)

/-! ## The run (src/main.rs `main`, lines 434-549) -/

/-- Settings resolution exactly as `main` performs it for one zone. -/
def effective_for (config : Option Config) (args : Args) (mc : ModelConfig)
    (zone_num : ℕ) : EffectiveZoneSettings :=
  get_effective_settings (get_zone_config config zone_num)
    (config.bind (fun c => c.global)) args mc zone_num

/-- First phase of `main` (lines 479-495): one color command per zone, in
zone order `0..FAN_COUNT`. -/
def colorPhase (config : Option Config) (args : Args) (mc : ModelConfig) :
    Except FanControlError (List Action) :=
  (List.range FAN_COUNT).foldlM (fun acc zone_num => do
    let s := effective_for config args mc zone_num
    let acts ← set_fan_color zone_num s.r s.g s.b s.brightness
    pure (acc ++ acts)) []

/-- Second phase of `main` (lines 497-510): one speed command per
Fixed-mode zone, in zone order. -/
def speedPhase (config : Option Config) (args : Args) (mc : ModelConfig) :
    Except FanControlError (List Action) :=
  (List.range FAN_COUNT).foldlM (fun acc zone_num => do
    let s := effective_for config args mc zone_num
    if s.mode = FanMode.Fixed then do
      let acts ← set_fan_speed zone_num s.speed mc
      pure (acc ++ acts)
    else pure acc) []

/-- The reactive set (lines 512-529): zones whose resolved mode is
`QuietCpu` or `QuietGpu`, in zone order. -/
def dynamicZones (config : Option Config) (args : Args) (mc : ModelConfig) :
    List (ℕ × EffectiveZoneSettings) :=
  (List.range FAN_COUNT).filterMap (fun zone_num =>
    let s := effective_for config args mc zone_num
    if s.mode = FanMode.QuietCpu ∨ s.mode = FanMode.QuietGpu then
      some (zone_num, s)
    else none)

/-- One iteration of the reactive loop body (lines 535-543): read each
reactive zone's sensor, map the temperature, send the speed command.  The
`Fixed` arm is `unreachable!()` in the source; `dynamicZones` never
produces it. -/
def loopIteration (dz : List (ℕ × EffectiveZoneSettings)) (mc : ModelConfig)
    (cpuTemp gpuTemp : ℚ) : Except FanControlError (List Action) :=
  dz.foldlM (fun acc zs => do
    let temp := match zs.2.mode with
      | FanMode.QuietCpu => cpuTemp
      | FanMode.QuietGpu => gpuTemp
      | FanMode.Fixed => cpuTemp
    let rpm := map_temp_to_rpm temp mc.min_rpm mc.max_rpm
    let acts ← set_fan_speed zs.1 rpm mc
    pure (acc ++ acts)) []

/-- The unbounded reactive loop (lines 534-545), cut off after `fuel`
iterations; each iteration ends with the fixed 5-second wait.  The sensor
readings of iteration `i` are `cpuTemps i` / `gpuTemps i`. -/
def runLoop (dz : List (ℕ × EffectiveZoneSettings)) (mc : ModelConfig)
    (cpuTemps gpuTemps : ℕ → ℚ) : ℕ → ℕ → Except FanControlError (List Action)
  | 0, _ => .ok []
  | Nat.succ fuel, i => do
    let acts ← loopIteration dz mc (cpuTemps i) (gpuTemps i)
    let rest ← runLoop dz mc cpuTemps gpuTemps fuel (i + 1)
    .ok (acts ++ [Action.sleepMs 5000] ++ rest)

/-- `main` after device open and init (lines 473-549), as the action trace
it sends.  The boolean is `true` when the process returns `Ok(())` (exit
code 0) and `false` when `fuel` iterations of the reactive loop ran without
the run completing. -/
def runMain (config : Option Config) (args : Args) (mc : ModelConfig)
    (cpuTemps gpuTemps : ℕ → ℚ) (fuel : ℕ) :
    Except FanControlError (List Action × Bool) := do
  let colorActs ← colorPhase config args mc
  let speedActs ← speedPhase config args mc
  let dz := dynamicZones config args mc
  if dz.isEmpty then
    .ok (send_init ++ colorActs ++ speedActs, true)
  else do
    let loopActs ← runLoop dz mc cpuTemps gpuTemps fuel 0
    .ok (send_init ++ colorActs ++ speedActs ++ loopActs, false)

/-! ## Definitions written from the specification's words, for comparison -/

/-- Modelled from the spec: the claimed scaled channel value
`round(channel × brightness / 100)` clamped to 255 (claim C1's formula; the
source truncates instead of rounding). -/
def specScaledColor (channel brightness : ℚ) : ℕ :=
  min 255 (round (channel * brightness / 100)).toNat

/-- A successfully parsed optional hex string. -/
def hexOk (c : Option (List Char)) : Option (ℕ × ℕ × ℕ) :=
  c.bind (fun s => (parse_hex_color s).toOption)

def zoneTriple (z : ZoneConfig) : Option (ℕ × ℕ × ℕ) :=
  match z.red, z.green, z.blue with
  | some r, some g, some b => some (r, g, b)
  | _, _, _ => none

def globalTriple (g : GlobalConfig) : Option (ℕ × ℕ × ℕ) :=
  match g.red, g.green, g.blue with
  | some r, some g', some b => some (r, g', b)
  | _, _, _ => none

/-- Vocabulary for the amended claim C8: a 2-character group accepted by
`u8::from_str_radix(_, 16)` — two base-16 digits, or a `+` sign followed by
one base-16 digit. -/
def hexPairOk (u : List Char) : Prop :=
  ∃ a b, u = [a, b] ∧
    (((hexDigit a).isSome ∧ (hexDigit b).isSome) ∨ (a = '+' ∧ (hexDigit b).isSome))

/-- Modelled from the spec: color chosen as a single atomic unit in
priority order zone hex, zone triple, global hex, global triple, CLI
triple — with unparsable hex strings skipped (the amended claim C4). -/
def rgbPriority (zc : Option ZoneConfig) (gc : Option GlobalConfig)
    (args : Args) : ℕ × ℕ × ℕ :=
  ((((zc.bind (fun z => hexOk z.color)).orElse
      (fun _ => zc.bind zoneTriple)).orElse
      (fun _ => gc.bind (fun g => hexOk g.color))).orElse
      (fun _ => gc.bind globalTriple)).getD
    (args.red, args.green, args.blue)

/-! ## Lemmas about the binary32 rounding model -/

theorem floor_le_rhe (m : ℚ) : ⌊m⌋ ≤ rhe m := by
  unfold rhe; split_ifs <;> omega

theorem rhe_le_floor_add_one (m : ℚ) : rhe m ≤ ⌊m⌋ + 1 := by
  unfold rhe; split_ifs <;> omega

theorem rhe_intCast (n : ℤ) : rhe (n : ℚ) = n := by
  unfold rhe
  rw [Int.fract_intCast, Int.floor_intCast]
  norm_num

theorem rhe_mono {m₁ m₂ : ℚ} (h : m₁ ≤ m₂) : rhe m₁ ≤ rhe m₂ := by
  rcases lt_or_le ⌊m₁⌋ ⌊m₂⌋ with hf | hf
  · exact le_trans (rhe_le_floor_add_one m₁) (le_trans (by omega) (floor_le_rhe m₂))
  · have hfe : ⌊m₂⌋ = ⌊m₁⌋ := le_antisymm hf (Int.floor_mono h)
    have e1 := Int.floor_add_fract m₁
    have e2 := Int.floor_add_fract m₂
    have hfr : Int.fract m₁ ≤ Int.fract m₂ := by
      rw [hfe] at e2
      push_cast at e1 e2
      linarith
    rcases lt_trichotomy (Int.fract m₂) (1 / 2 : ℚ) with h2 | h2 | h2
    · have h1 : Int.fract m₁ < 1 / 2 := lt_of_le_of_lt hfr h2
      rw [rhe, if_pos h1, rhe, if_pos h2, hfe]
    · rcases eq_or_lt_of_le hfr with h1 | h1
      · have hq : m₁ = m₂ := by
          rw [hfe, ← h1] at e2
          linarith
        rw [hq]
      · have h1' : Int.fract m₁ < 1 / 2 := h2 ▸ h1
        rw [rhe, if_pos h1']
        exact hfe ▸ floor_le_rhe m₂
    · have hr2 : rhe m₂ = ⌊m₂⌋ + 1 := by
        rw [rhe, if_neg (by linarith), if_pos h2]
      rw [hr2, hfe]
      exact rhe_le_floor_add_one m₁

theorem le_rhe_of_le {n : ℤ} {m : ℚ} (h : (n : ℚ) ≤ m) : n ≤ rhe m := by
  have := rhe_mono h
  rwa [rhe_intCast] at this

theorem rhe_le_of_le {n : ℤ} {m : ℚ} (h : m ≤ (n : ℚ)) : rhe m ≤ n := by
  have := rhe_mono h
  rwa [rhe_intCast] at this

theorem sig_lower {q : ℚ} (hq : 0 < q) :
    (2 : ℚ) ^ (23 : ℤ) ≤ q * 2 ^ ((23 : ℤ) - Int.log 2 q) := by
  have h1 : (2 : ℚ) ^ (Int.log 2 q) ≤ q := by
    have := Int.zpow_log_le_self (b := 2) (R := ℚ) (by norm_num) hq
    simpa using this
  have hpow : (0 : ℚ) < 2 ^ ((23 : ℤ) - Int.log 2 q) := zpow_pos (by norm_num) _
  calc (2 : ℚ) ^ (23 : ℤ)
      = 2 ^ (Int.log 2 q) * 2 ^ ((23 : ℤ) - Int.log 2 q) := by
        rw [← zpow_add₀ (by norm_num : (2 : ℚ) ≠ 0)]
        ring_nf
    _ ≤ q * 2 ^ ((23 : ℤ) - Int.log 2 q) := by
        exact mul_le_mul_of_nonneg_right h1 hpow.le

theorem sig_upper {q : ℚ} (_hq : 0 < q) :
    q * 2 ^ ((23 : ℤ) - Int.log 2 q) < (2 : ℚ) ^ (24 : ℤ) := by
  have h1 : q < (2 : ℚ) ^ (Int.log 2 q + 1) := by
    have := Int.lt_zpow_succ_log_self (b := 2) (R := ℚ) (by norm_num) q
    simpa using this
  have hpow : (0 : ℚ) < 2 ^ ((23 : ℤ) - Int.log 2 q) := zpow_pos (by norm_num) _
  calc q * 2 ^ ((23 : ℤ) - Int.log 2 q)
      < 2 ^ (Int.log 2 q + 1) * 2 ^ ((23 : ℤ) - Int.log 2 q) :=
        mul_lt_mul_of_pos_right h1 hpow
    _ = (2 : ℚ) ^ (24 : ℤ) := by
        rw [← zpow_add₀ (by norm_num : (2 : ℚ) ≠ 0)]
        ring_nf

theorem intCast_two_pow_q (k : ℕ) : (((2 : ℤ) ^ k : ℤ) : ℚ) = (2 : ℚ) ^ (k : ℤ) := by
  rw [zpow_natCast]
  push_cast
  ring

theorem flPos_lower {q : ℚ} (hq : 0 < q) : (2 : ℚ) ^ (Int.log 2 q) ≤ flPos q := by
  have hsig := sig_lower hq
  have h23 : (((2 : ℤ) ^ (23 : ℕ) : ℤ) : ℚ) ≤ q * 2 ^ ((23 : ℤ) - Int.log 2 q) := by
    rw [intCast_two_pow_q]
    simpa using hsig
  have hr := le_rhe_of_le h23
  have hpow : (0 : ℚ) < 2 ^ (Int.log 2 q - 23) := zpow_pos (by norm_num) _
  have hmul : (((2 : ℤ) ^ (23 : ℕ) : ℤ) : ℚ) * 2 ^ (Int.log 2 q - 23) ≤ flPos q :=
    mul_le_mul_of_nonneg_right (by exact_mod_cast hr) hpow.le
  refine le_trans (le_of_eq ?_) hmul
  rw [intCast_two_pow_q, ← zpow_add₀ (by norm_num : (2 : ℚ) ≠ 0)]
  congr 1
  push_cast
  ring

theorem flPos_upper {q : ℚ} (hq : 0 < q) : flPos q ≤ (2 : ℚ) ^ (Int.log 2 q + 1) := by
  have hsig := sig_upper hq
  have h24 : q * 2 ^ ((23 : ℤ) - Int.log 2 q) ≤ (((2 : ℤ) ^ (24 : ℕ) : ℤ) : ℚ) := by
    rw [intCast_two_pow_q]
    exact le_of_lt (by simpa using hsig)
  have hr := rhe_le_of_le h24
  have hpow : (0 : ℚ) < 2 ^ (Int.log 2 q - 23) := zpow_pos (by norm_num) _
  calc flPos q
      ≤ (((2 : ℤ) ^ (24 : ℕ) : ℤ) : ℚ) * 2 ^ (Int.log 2 q - 23) :=
        mul_le_mul_of_nonneg_right (by exact_mod_cast hr) hpow.le
    _ = (2 : ℚ) ^ (Int.log 2 q + 1) := by
        rw [intCast_two_pow_q, ← zpow_add₀ (by norm_num : (2 : ℚ) ≠ 0)]
        congr 1
        push_cast
        ring

theorem flPos_pos {q : ℚ} (hq : 0 < q) : 0 < flPos q :=
  lt_of_lt_of_le (zpow_pos (by norm_num) _) (flPos_lower hq)

theorem flPos_mono {q₁ q₂ : ℚ} (h0 : 0 < q₁) (h : q₁ ≤ q₂) : flPos q₁ ≤ flPos q₂ := by
  have he : Int.log 2 q₁ ≤ Int.log 2 q₂ := Int.log_mono_right h0 h
  rcases eq_or_lt_of_le he with he' | he'
  · unfold flPos
    rw [← he']
    have hpow : (0 : ℚ) ≤ 2 ^ (Int.log 2 q₁ - 23) := (zpow_pos (by norm_num) _).le
    refine mul_le_mul_of_nonneg_right ?_ hpow
    have : q₁ * 2 ^ ((23 : ℤ) - Int.log 2 q₁) ≤ q₂ * 2 ^ ((23 : ℤ) - Int.log 2 q₁) :=
      mul_le_mul_of_nonneg_right h (zpow_pos (a := (2 : ℚ)) (by norm_num) _).le
    exact_mod_cast rhe_mono this
  · have h02 : 0 < q₂ := lt_of_lt_of_le h0 h
    calc flPos q₁ ≤ (2 : ℚ) ^ (Int.log 2 q₁ + 1) := flPos_upper h0
      _ ≤ (2 : ℚ) ^ (Int.log 2 q₂) := zpow_le_zpow_right₀ (by norm_num) (by omega)
      _ ≤ flPos q₂ := flPos_lower h02

theorem fl32_dyadic (n k : ℤ) (h0 : 0 < n) (h24 : n < 2 ^ 24) :
    fl32 ((n : ℚ) * 2 ^ k) = (n : ℚ) * 2 ^ k := by
  have hq : (0 : ℚ) < (n : ℚ) * 2 ^ k :=
    mul_pos (by exact_mod_cast h0) (zpow_pos (by norm_num) _)
  rw [fl32, if_pos hq]
  set e := Int.log 2 ((n : ℚ) * 2 ^ k) with he
  have hub : (n : ℚ) * 2 ^ k < (2 : ℚ) ^ (k + 24) := by
    have : (n : ℚ) < 2 ^ (24 : ℤ) := by
      exact_mod_cast h24
    calc (n : ℚ) * 2 ^ k < 2 ^ (24 : ℤ) * 2 ^ k :=
        mul_lt_mul_of_pos_right this (zpow_pos (by norm_num) _)
      _ = (2 : ℚ) ^ (k + 24) := by
        rw [← zpow_add₀ (by norm_num : (2 : ℚ) ≠ 0)]
        ring_nf
  have helt : e < k + 24 := by
    rw [he]
    exact (Int.lt_zpow_iff_log_lt (by norm_num) hq).mp hub
  have hs : (0 : ℤ) ≤ k + 23 - e := by omega
  have hm : (n : ℚ) * 2 ^ k * 2 ^ ((23 : ℤ) - e) = ((n * 2 ^ (k + 23 - e).toNat : ℤ) : ℚ) := by
    push_cast
    rw [← zpow_natCast (2 : ℚ) (k + 23 - e).toNat, Int.toNat_of_nonneg hs,
      mul_assoc, ← zpow_add₀ (by norm_num : (2 : ℚ) ≠ 0)]
    ring_nf
  unfold flPos
  rw [← he, hm, rhe_intCast]
  push_cast
  rw [← zpow_natCast (2 : ℚ) (k + 23 - e).toNat, Int.toNat_of_nonneg hs,
    mul_assoc, ← zpow_add₀ (by norm_num : (2 : ℚ) ≠ 0)]
  ring_nf

theorem fl32_zero : fl32 0 = 0 := by
  unfold fl32
  norm_num

theorem fl32_eq_self_of_dyadic {q : ℚ} (n : ℕ) (k : ℤ) (hq : q = (n : ℚ) * 2 ^ k)
    (h24 : n < 2 ^ 24) : fl32 q = q := by
  rcases Nat.eq_zero_or_pos n with h0 | h0
  · rw [hq, h0]
    push_cast
    rw [zero_mul]
    exact fl32_zero
  · have := fl32_dyadic (n : ℤ) k (by exact_mod_cast h0) (by exact_mod_cast h24)
    rw [hq]
    push_cast at this ⊢
    exact this

theorem fl32_natCast (n : ℕ) (h : n < 2 ^ 24) : fl32 (n : ℚ) = n := by
  rcases Nat.eq_zero_or_pos n with h0 | h0
  · rw [h0]
    exact_mod_cast fl32_zero
  · have := fl32_dyadic (n : ℤ) 0 (by exact_mod_cast h0) (by exact_mod_cast h)
    simpa using this

theorem fl32_one : fl32 1 = 1 := by
  have := fl32_natCast 1 (by norm_num)
  simpa using this

theorem fl32_nonneg {q : ℚ} (h : 0 ≤ q) : 0 ≤ fl32 q := by
  rcases eq_or_lt_of_le h with h0 | h0
  · rw [← h0, fl32_zero]
  · rw [fl32, if_pos h0]
    exact (flPos_pos h0).le

theorem fl32_mono {q₁ q₂ : ℚ} (h0 : 0 ≤ q₁) (h : q₁ ≤ q₂) : fl32 q₁ ≤ fl32 q₂ := by
  rcases eq_or_lt_of_le h0 with h1 | h1
  · rw [← h1, fl32_zero]
    exact fl32_nonneg (le_trans h0 h)
  · rw [fl32, if_pos h1, fl32, if_pos (lt_of_lt_of_le h1 h)]
    exact flPos_mono h1 h

theorem fl32_le_natCast {q : ℚ} (n : ℕ) (h0 : 0 ≤ q) (h : q ≤ (n : ℚ))
    (hn : n < 2 ^ 24) : fl32 q ≤ (n : ℚ) := by
  have := fl32_mono h0 h
  rwa [fl32_natCast n hn] at this

theorem natCast_le_fl32 {q : ℚ} (n : ℕ) (h : (n : ℚ) ≤ q) (hn : n < 2 ^ 24) :
    (n : ℚ) ≤ fl32 q := by
  have := fl32_mono (n.cast_nonneg) h
  rwa [fl32_natCast n hn] at this

/-! ## Rounding-cast helpers -/

theorem rustRound_eq_round {q : ℚ} (h : 0 ≤ q) : rustRound q = round q := by
  rw [rustRound, if_pos h]

theorem rustRound_natCast (n : ℕ) : rustRound (n : ℚ) = n := by
  rw [rustRound_eq_round n.cast_nonneg, round_natCast]

theorem rustRound_mono {a b : ℚ} (ha : 0 ≤ a) (h : a ≤ b) :
    rustRound a ≤ rustRound b := by
  rw [rustRound_eq_round ha, rustRound_eq_round (le_trans ha h), round_eq, round_eq]
  exact Int.floor_mono (by linarith)

theorem rustRound_le_natCast {q : ℚ} (n : ℕ) (h0 : 0 ≤ q) (h : q ≤ (n : ℚ)) :
    rustRound q ≤ (n : ℤ) := by
  have := rustRound_mono h0 h
  rwa [rustRound_natCast] at this

theorem natCast_le_rustRound {q : ℚ} (n : ℕ) (h : (n : ℚ) ≤ q) :
    (n : ℤ) ≤ rustRound q := by
  have := rustRound_mono n.cast_nonneg h
  rwa [rustRound_natCast] at this

/-! ## Channel scaling lemmas (claim C1) -/

theorem scaleChannel_le_255 (c : ℕ) (f : ℚ) : scaleChannel c f ≤ 255 := by
  unfold scaleChannel f32AsU8
  exact min_le_left _ _

theorem fl32_half : fl32 ((50 : ℚ) / 100) = 1 / 2 := by
  rw [fl32_eq_self_of_dyadic 1 (-1) (by norm_num) (by norm_num)]
  norm_num

theorem scaleChannel_brightness_zero (c : ℕ) :
    scaleChannel c (fl32 ((0 : ℚ) / 100)) = 0 := by
  unfold scaleChannel f32AsU8
  rw [show ((0 : ℚ) / 100) = 0 by norm_num, fl32_zero, mul_zero, fl32_zero]
  norm_num

theorem scaleChannel_brightness_full (c : ℕ) (hc : c ≤ 255) :
    scaleChannel c (fl32 ((100 : ℚ) / 100)) = c := by
  unfold scaleChannel f32AsU8
  rw [show ((100 : ℚ) / 100) = 1 by norm_num, fl32_one, mul_one,
    fl32_natCast c (by omega)]
  rw [min_eq_left (by exact_mod_cast hc : (c : ℚ) ≤ 255), Int.floor_natCast]
  simp [hc]

theorem scaleChannel_255_half : scaleChannel 255 (fl32 ((50 : ℚ) / 100)) = 127 := by
  rw [fl32_half]
  unfold scaleChannel f32AsU8
  rw [show ((255 : ℕ) : ℚ) * (1 / 2) = 255 / 2 by norm_num]
  rw [fl32_eq_self_of_dyadic 255 (-1) (by norm_num) (by norm_num)]
  rw [show min ((255 : ℚ) / 2) 255 = 255 / 2 by norm_num]
  rw [show ⌊(255 / 2 : ℚ)⌋ = 127 by rw [Int.floor_eq_iff]; norm_num]
  decide

theorem specScaledColor_255_50 : specScaledColor 255 50 = 128 := by
  unfold specScaledColor
  rw [show ((255 : ℚ) * 50 / 100) = 255 / 2 by norm_num]
  rw [round_eq]
  rw [show ⌊(255 / 2 : ℚ) + 1 / 2⌋ = 128 by rw [Int.floor_eq_iff]; norm_num]
  decide

/-! ## Color frame layout lemmas (claim C2) -/

theorem colorFrame_length (fan sr sb sg : ℕ) :
    ([REPORT_ID, SET_COLOR_CMD_BASE + fan]
      ++ (List.replicate LEDS_PER_FAN [sr, sb, sg]).flatten).length = 353 := by
  rw [List.length_append, List.length_flatten, List.map_replicate, List.sum_replicate]
  rfl

theorem resizeList_of_length_eq {l : List ℕ} {n v : ℕ} (h : l.length = n) :
    resizeList l n v = l := by
  unfold resizeList
  subst h
  simp

/-! ## Speed byte lemmas (claim C3) -/

theorem speed_byte_at_min (mc : ModelConfig) (h : mc.min_rpm < mc.max_rpm) :
    speed_byte mc mc.min_rpm = 1 := by
  unfold speed_byte
  have hv : ((mc.min_rpm - mc.min_rpm : ℕ) : ℚ) = 0 := by
    simp
  rw [hv]
  have hr : (0 : ℚ) < ((mc.max_rpm - mc.min_rpm : ℕ) : ℚ) := by
    have : 0 < mc.max_rpm - mc.min_rpm := by omega
    exact_mod_cast this
  rw [if_pos hr, zero_div, fl32_zero, zero_mul, fl32_zero]
  rw [show rustRound 0 = ((0 : ℕ) : ℤ) by exact_mod_cast rustRound_natCast 0]
  decide

theorem speed_byte_at_max (mc : ModelConfig) (h : mc.min_rpm < mc.max_rpm) :
    speed_byte mc mc.max_rpm = 255 := by
  unfold speed_byte
  have hr : (0 : ℚ) < ((mc.max_rpm - mc.min_rpm : ℕ) : ℚ) := by
    have : 0 < mc.max_rpm - mc.min_rpm := by omega
    exact_mod_cast this
  rw [if_pos hr, div_self (ne_of_gt hr), fl32_one, one_mul]
  rw [show (254 : ℚ) = ((254 : ℕ) : ℚ) by norm_num, fl32_natCast 254 (by norm_num),
    rustRound_natCast 254]
  decide

theorem speed_byte_bounds (mc : ModelConfig) (speed : ℕ)
    (h : mc.min_rpm < mc.max_rpm) (hs2 : speed ≤ mc.max_rpm) :
    1 ≤ speed_byte mc speed ∧ speed_byte mc speed ≤ 255 := by
  unfold speed_byte
  have hr : (0 : ℚ) < ((mc.max_rpm - mc.min_rpm : ℕ) : ℚ) := by
    have : 0 < mc.max_rpm - mc.min_rpm := by omega
    exact_mod_cast this
  rw [if_pos hr]
  have hv0 : (0 : ℚ) ≤ ((speed - mc.min_rpm : ℕ) : ℚ) := by positivity
  have hvr : ((speed - mc.min_rpm : ℕ) : ℚ) ≤ ((mc.max_rpm - mc.min_rpm : ℕ) : ℚ) := by
    have : speed - mc.min_rpm ≤ mc.max_rpm - mc.min_rpm := by omega
    exact_mod_cast this
  have hq1 : (0 : ℚ) ≤ ((speed - mc.min_rpm : ℕ) : ℚ) / ((mc.max_rpm - mc.min_rpm : ℕ) : ℚ) :=
    div_nonneg hv0 hr.le
  have hq1' : ((speed - mc.min_rpm : ℕ) : ℚ) / ((mc.max_rpm - mc.min_rpm : ℕ) : ℚ) ≤ 1 :=
    (div_le_one hr).mpr hvr
  have hq2 : (0 : ℚ) ≤ fl32 (((speed - mc.min_rpm : ℕ) : ℚ) / ((mc.max_rpm - mc.min_rpm : ℕ) : ℚ)) :=
    fl32_nonneg hq1
  have hq2' : fl32 (((speed - mc.min_rpm : ℕ) : ℚ) / ((mc.max_rpm - mc.min_rpm : ℕ) : ℚ)) ≤ 1 := by
    have := fl32_le_natCast 1 hq1 (by exact_mod_cast hq1') (by norm_num)
    exact_mod_cast this
  have hq3 : (0 : ℚ) ≤ fl32 (((speed - mc.min_rpm : ℕ) : ℚ) / ((mc.max_rpm - mc.min_rpm : ℕ) : ℚ)) * 254 := by
    positivity
  have hq3' : fl32 (((speed - mc.min_rpm : ℕ) : ℚ) / ((mc.max_rpm - mc.min_rpm : ℕ) : ℚ)) * 254 ≤ 254 := by
    nlinarith
  have hq4 : (0 : ℚ) ≤ fl32 (fl32 (((speed - mc.min_rpm : ℕ) : ℚ) / ((mc.max_rpm - mc.min_rpm : ℕ) : ℚ)) * 254) :=
    fl32_nonneg hq3
  have hq4' : fl32 (fl32 (((speed - mc.min_rpm : ℕ) : ℚ) / ((mc.max_rpm - mc.min_rpm : ℕ) : ℚ)) * 254) ≤ 254 := by
    have := fl32_le_natCast 254 hq3 (by exact_mod_cast hq3') (by norm_num)
    exact_mod_cast this
  have hrd : (0 : ℤ) ≤ rustRound (fl32 (fl32 (((speed - mc.min_rpm : ℕ) : ℚ) / ((mc.max_rpm - mc.min_rpm : ℕ) : ℚ)) * 254)) := by
    have := natCast_le_rustRound 0 (by exact_mod_cast hq4)
    exact_mod_cast this
  have hrd' : rustRound (fl32 (fl32 (((speed - mc.min_rpm : ℕ) : ℚ) / ((mc.max_rpm - mc.min_rpm : ℕ) : ℚ)) * 254)) ≤ (254 : ℤ) := by
    have := rustRound_le_natCast 254 hq4 (by exact_mod_cast hq4')
    exact_mod_cast this
  have hbyte : intAsU8 (rustRound (fl32 (fl32 (((speed - mc.min_rpm : ℕ) : ℚ) / ((mc.max_rpm - mc.min_rpm : ℕ) : ℚ)) * 254))) ≤ 254 := by
    unfold intAsU8
    omega
  unfold intAsU8 at hbyte ⊢
  omega

/-! ## Temperature mapping lemmas (claim C5) -/

theorem map_temp_low {t : ℚ} (mn mx : ℕ) (h : t ≤ 60) : map_temp_to_rpm t mn mx = mn := by
  unfold map_temp_to_rpm
  rw [if_pos h]

theorem map_temp_high {t : ℚ} (mn mx : ℕ) (h : 95 ≤ t) : map_temp_to_rpm t mn mx = mx := by
  unfold map_temp_to_rpm
  rw [if_neg (by linarith), if_pos h]

theorem fracPart_nonneg {t : ℚ} (h60 : 60 < t) :
    0 ≤ fl32 (fl32 (t - 60) / (95 - 60)) :=
  fl32_nonneg (div_nonneg (fl32_nonneg (by linarith)) (by norm_num))

theorem fracPart_le_one {t : ℚ} (h60 : 60 < t) (h95 : t < 95) :
    fl32 (fl32 (t - 60) / (95 - 60)) ≤ 1 := by
  have h1 : fl32 (t - 60) ≤ ((35 : ℕ) : ℚ) :=
    fl32_le_natCast 35 (by linarith) (by push_cast; linarith) (by norm_num)
  have h2 : fl32 (t - 60) / (95 - 60) ≤ 1 := by
    rw [div_le_one (by norm_num : (0 : ℚ) < 95 - 60)]
    push_cast at h1
    linarith
  have h3 := fl32_le_natCast (q := fl32 (t - 60) / (95 - 60)) 1
    (div_nonneg (fl32_nonneg (by linarith)) (by norm_num)) (by push_cast; linarith)
    (by norm_num)
  push_cast at h3
  linarith

theorem fracPart_mono {t₁ t₂ : ℚ} (h60 : 60 < t₁) (h : t₁ ≤ t₂) :
    fl32 (fl32 (t₁ - 60) / (95 - 60)) ≤ fl32 (fl32 (t₂ - 60) / (95 - 60)) := by
  have h1 : fl32 (t₁ - 60) ≤ fl32 (t₂ - 60) := fl32_mono (by linarith) (by linarith)
  have h2 : fl32 (t₁ - 60) / (95 - 60) ≤ fl32 (t₂ - 60) / (95 - 60) :=
    (div_le_div_iff_of_pos_right (by norm_num : (0 : ℚ) < 95 - 60)).mpr h1
  exact fl32_mono (div_nonneg (fl32_nonneg (by linarith)) (by norm_num)) h2

theorem interp_bounds (mn mx : ℕ) (hmn : mn < mx) (hmx : mx ≤ 65535) {x : ℚ}
    (hx0 : 0 ≤ x) (hx1 : x ≤ 1) :
    mn ≤ intAsU16 (rustRound (fl32 ((mn : ℚ) + fl32 (x * ((mx - mn : ℕ) : ℚ)))))
    ∧ intAsU16 (rustRound (fl32 ((mn : ℚ) + fl32 (x * ((mx - mn : ℕ) : ℚ))))) ≤ mx := by
  have hR0 : (0 : ℚ) ≤ ((mx - mn : ℕ) : ℚ) := Nat.cast_nonneg _
  have hq3 : 0 ≤ x * ((mx - mn : ℕ) : ℚ) := mul_nonneg hx0 hR0
  have hq3' : x * ((mx - mn : ℕ) : ℚ) ≤ ((mx - mn : ℕ) : ℚ) := by nlinarith
  have hf3 : 0 ≤ fl32 (x * ((mx - mn : ℕ) : ℚ)) := fl32_nonneg hq3
  have hf3' : fl32 (x * ((mx - mn : ℕ) : ℚ)) ≤ ((mx - mn : ℕ) : ℚ) :=
    fl32_le_natCast (mx - mn) hq3 hq3' (by omega)
  have hs0 : (mn : ℚ) ≤ (mn : ℚ) + fl32 (x * ((mx - mn : ℕ) : ℚ)) := by linarith
  have hcast : ((mx - mn : ℕ) : ℚ) = (mx : ℚ) - (mn : ℚ) := by
    exact_mod_cast Nat.cast_sub hmn.le
  have hs1 : (mn : ℚ) + fl32 (x * ((mx - mn : ℕ) : ℚ)) ≤ (mx : ℚ) := by
    linarith [hf3', hcast]
  have hfs_lo : (mn : ℚ) ≤ fl32 ((mn : ℚ) + fl32 (x * ((mx - mn : ℕ) : ℚ))) :=
    natCast_le_fl32 mn hs0 (by omega)
  have hfs_hi : fl32 ((mn : ℚ) + fl32 (x * ((mx - mn : ℕ) : ℚ))) ≤ (mx : ℚ) :=
    fl32_le_natCast mx (le_trans (Nat.cast_nonneg mn) hs0) hs1 (by omega)
  have hnn : (0 : ℚ) ≤ (mn : ℚ) + fl32 (x * ((mx - mn : ℕ) : ℚ)) :=
    le_trans (Nat.cast_nonneg mn) hs0
  have hr_lo := natCast_le_rustRound mn hfs_lo
  have hr_hi := rustRound_le_natCast mx (fl32_nonneg hnn) hfs_hi
  unfold intAsU16
  omega

theorem interp_mono (mn mx : ℕ) {x y : ℚ} (hx0 : 0 ≤ x) (hxy : x ≤ y) :
    intAsU16 (rustRound (fl32 ((mn : ℚ) + fl32 (x * ((mx - mn : ℕ) : ℚ)))))
    ≤ intAsU16 (rustRound (fl32 ((mn : ℚ) + fl32 (y * ((mx - mn : ℕ) : ℚ))))) := by
  have hR0 : (0 : ℚ) ≤ ((mx - mn : ℕ) : ℚ) := Nat.cast_nonneg _
  have h1 : x * ((mx - mn : ℕ) : ℚ) ≤ y * ((mx - mn : ℕ) : ℚ) :=
    mul_le_mul_of_nonneg_right hxy hR0
  have h2 : fl32 (x * ((mx - mn : ℕ) : ℚ)) ≤ fl32 (y * ((mx - mn : ℕ) : ℚ)) :=
    fl32_mono (mul_nonneg hx0 hR0) h1
  have hnnx : (0 : ℚ) ≤ (mn : ℚ) + fl32 (x * ((mx - mn : ℕ) : ℚ)) :=
    add_nonneg (Nat.cast_nonneg mn) (fl32_nonneg (mul_nonneg hx0 hR0))
  have h4 : fl32 ((mn : ℚ) + fl32 (x * ((mx - mn : ℕ) : ℚ)))
      ≤ fl32 ((mn : ℚ) + fl32 (y * ((mx - mn : ℕ) : ℚ))) :=
    fl32_mono hnnx (by linarith)
  have h5 := rustRound_mono (fl32_nonneg hnnx) h4
  unfold intAsU16
  omega

theorem map_temp_mid {t : ℚ} (mn mx : ℕ) (h60 : 60 < t) (h95 : t < 95) :
    map_temp_to_rpm t mn mx = intAsU16 (rustRound (fl32 ((mn : ℚ)
      + fl32 (fl32 (fl32 (t - 60) / (95 - 60)) * ((mx - mn : ℕ) : ℚ))))) := by
  unfold map_temp_to_rpm
  rw [if_neg (by linarith), if_neg (by linarith)]

theorem map_temp_bounds {t : ℚ} (mn mx : ℕ) (hmn : mn < mx) (hmx : mx ≤ 65535) :
    mn ≤ map_temp_to_rpm t mn mx ∧ map_temp_to_rpm t mn mx ≤ mx := by
  rcases le_or_lt t 60 with h60 | h60
  · rw [map_temp_low mn mx h60]
    omega
  · rcases le_or_lt 95 t with h95 | h95
    · rw [map_temp_high mn mx h95]
      omega
    · rw [map_temp_mid mn mx h60 h95]
      exact interp_bounds mn mx hmn hmx (fracPart_nonneg h60) (fracPart_le_one h60 h95)

theorem map_temp_mono {t₁ t₂ : ℚ} (mn mx : ℕ) (hmn : mn < mx) (hmx : mx ≤ 65535)
    (h : t₁ ≤ t₂) : map_temp_to_rpm t₁ mn mx ≤ map_temp_to_rpm t₂ mn mx := by
  rcases le_or_lt t₁ 60 with h60 | h60
  · rw [map_temp_low mn mx h60]
    exact (map_temp_bounds mn mx hmn hmx).1
  · rcases le_or_lt 95 t₂ with h95 | h95
    · rw [map_temp_high mn mx h95]
      exact (map_temp_bounds mn mx hmn hmx).2
    · have h60' : 60 < t₂ := lt_of_lt_of_le h60 h
      have h95' : t₁ < 95 := lt_of_le_of_lt h h95
      rw [map_temp_mid mn mx h60 h95', map_temp_mid mn mx h60' h95]
      exact interp_mono mn mx (fracPart_nonneg h60) (fracPart_mono h60 h)

/-! ## Hex parsing lemmas (claims C4, C8, C10) -/

theorem hexDigit_le_15 {c : Char} {d : ℕ} (h : hexDigit c = some d) : d ≤ 15 := by
  unfold hexDigit at h
  split_ifs at h with h1 h2 h3
  · simp only [Option.some.injEq] at h
    obtain ⟨ha, hb⟩ := h1
    simp [Char.le_def, UInt32.le_def, BitVec.le_def] at ha hb
    simp [Char.toNat, UInt32.toNat] at h
    omega
  · simp only [Option.some.injEq] at h
    obtain ⟨ha, hb⟩ := h2
    simp [Char.le_def, UInt32.le_def, BitVec.le_def] at ha hb
    simp [Char.toNat, UInt32.toNat] at h
    omega
  · simp only [Option.some.injEq] at h
    obtain ⟨ha, hb⟩ := h3
    simp [Char.le_def, UInt32.le_def, BitVec.le_def] at ha hb
    simp [Char.toNat, UInt32.toNat] at h
    omega

theorem parseHexDigits_single {b : Char} {d : ℕ} (h : hexDigit b = some d) :
    parseHexDigits [b] = some d := by
  have hd := hexDigit_le_15 h
  unfold parseHexDigits
  simp [h]
  omega

theorem parseHexDigits_single_isSome (b : Char) :
    (parseHexDigits [b]).isSome ↔ (hexDigit b).isSome := by
  cases hb : hexDigit b with
  | none => simp [parseHexDigits, hb]
  | some d => simp [parseHexDigits_single hb]

theorem parseHexDigits_pair {a b : Char} {d1 d2 : ℕ} (h1 : hexDigit a = some d1)
    (h2 : hexDigit b = some d2) : parseHexDigits [a, b] = some (d1 * 16 + d2) := by
  have e1 := hexDigit_le_15 h1
  have e2 := hexDigit_le_15 h2
  unfold parseHexDigits
  simp [h1, h2]
  rw [if_pos (show d1 ≤ 255 by omega)]
  show (if d1 * 16 + d2 ≤ 255 then some (d1 * 16 + d2) else none) = some (d1 * 16 + d2)
  rw [if_pos (by omega)]

theorem parseHexDigits_pair_isSome {a b : Char} :
    (parseHexDigits [a, b]).isSome ↔ (hexDigit a).isSome ∧ (hexDigit b).isSome := by
  cases ha : hexDigit a with
  | none => simp [parseHexDigits, ha]
  | some d1 =>
    cases hb : hexDigit b with
    | none =>
      have e1 := hexDigit_le_15 ha
      simp [parseHexDigits, ha, hb]
    | some d2 => simp [parseHexDigits_pair ha hb]

theorem fromStrRadix16_plus (rest : List Char) :
    fromStrRadix16 ('+' :: rest) = if rest = [] then none else parseHexDigits rest := rfl

theorem fromStrRadix16_cons_ne {a : Char} (l : List Char) (h : a ≠ '+') :
    fromStrRadix16 (a :: l) = parseHexDigits (a :: l) := by
  unfold fromStrRadix16
  split
  · simp_all
  · rename_i heq
    rw [List.cons.injEq] at heq
    exact absurd heq.1 h
  · rfl

theorem hexDigit_plus : hexDigit '+' = none := rfl

theorem fromStrRadix16_pair_isSome (a b : Char) :
    (fromStrRadix16 [a, b]).isSome ↔
      ((hexDigit a).isSome ∧ (hexDigit b).isSome) ∨ (a = '+' ∧ (hexDigit b).isSome) := by
  by_cases hp : a = '+'
  · subst hp
    rw [fromStrRadix16_plus]
    simp [parseHexDigits_single_isSome, hexDigit_plus]
  · rw [fromStrRadix16_cons_ne _ hp]
    simp [parseHexDigits_pair_isSome, hp]

theorem hexPairOk_iff_isSome (a b : Char) :
    hexPairOk [a, b] ↔ (fromStrRadix16 [a, b]).isSome := by
  rw [fromStrRadix16_pair_isSome]
  constructor
  · rintro ⟨a', b', heq, hx⟩
    injection heq with h1 h2
    injection h2 with h3 h4
    subst h1
    subst h3
    exact hx
  · intro hx
    exact ⟨a, b, rfl, hx⟩

theorem dropWhile_hash_replicate (n : ℕ) (s : List Char) :
    (List.replicate n '#' ++ s).dropWhile (fun c => c = '#')
      = s.dropWhile (fun c => c = '#') := by
  induction n with
  | zero => simp
  | succ n ih =>
    rw [List.replicate_succ, List.cons_append, List.dropWhile_cons]
    rw [if_pos (by decide)]
    exact ih

theorem dropWhile_of_head_ne {a : Char} {l : List Char} (h : ¬ a = '#') :
    (a :: l).dropWhile (fun c => c = '#') = a :: l := by
  rw [List.dropWhile_cons]
  simp [h]

theorem exists_six {α : Type} {s : List α} (h : s.length = 6) :
    ∃ a b c d e f, s = [a, b, c, d, e, f] := by
  match s with
  | [a, b, c, d, e, f] => exact ⟨a, b, c, d, e, f, rfl⟩
  | [] | [_] | [_, _] | [_, _, _] | [_, _, _, _] | [_, _, _, _, _] => simp at h
  | _ :: _ :: _ :: _ :: _ :: _ :: _ :: t => simp at h

theorem parse_hex_color_six {a b c d e f : Char} {da db dc dd de df : ℕ}
    (ha : hexDigit a = some da) (hb : hexDigit b = some db)
    (hc : hexDigit c = some dc) (hd : hexDigit d = some dd)
    (he : hexDigit e = some de) (hf : hexDigit f = some df) (hne : ¬ a = '#') :
    parse_hex_color [a, b, c, d, e, f]
      = .ok (da * 16 + db, dc * 16 + dd, de * 16 + df) := by
  have hpa : ¬ a = '+' := by
    intro hp
    rw [hp, hexDigit_plus] at ha
    exact Option.noConfusion ha
  have hpc : ¬ c = '+' := by
    intro hp
    rw [hp, hexDigit_plus] at hc
    exact Option.noConfusion hc
  have hpe : ¬ e = '+' := by
    intro hp
    rw [hp, hexDigit_plus] at he
    exact Option.noConfusion he
  have h1 : fromStrRadix16 [a, b] = some (da * 16 + db) := by
    rw [fromStrRadix16_cons_ne _ hpa]
    exact parseHexDigits_pair ha hb
  have h2 : fromStrRadix16 [c, d] = some (dc * 16 + dd) := by
    rw [fromStrRadix16_cons_ne _ hpc]
    exact parseHexDigits_pair hc hd
  have h3 : fromStrRadix16 [e, f] = some (de * 16 + df) := by
    rw [fromStrRadix16_cons_ne _ hpe]
    exact parseHexDigits_pair he hf
  unfold parse_hex_color
  rw [dropWhile_of_head_ne hne]
  simp only [List.take, List.drop, List.length]
  rw [if_neg (by norm_num), h1, h2, h3]

theorem hexDigit_hash : hexDigit '#' = none := rfl

theorem parse_hex_color_ok_iff (s : List Char) :
    (∃ v, parse_hex_color s = .ok v) ↔
      ((s.dropWhile (fun c => c = '#')).length = 6
        ∧ hexPairOk ((s.dropWhile (fun c => c = '#')).take 2)
        ∧ hexPairOk (((s.dropWhile (fun c => c = '#')).drop 2).take 2)
        ∧ hexPairOk (((s.dropWhile (fun c => c = '#')).drop 4).take 2)) := by
  unfold parse_hex_color
  by_cases h6 : (s.dropWhile (fun c => c = '#')).length = 6
  · obtain ⟨a, b, c, d, e, f, ht⟩ := exists_six h6
    rw [ht]
    rw [if_neg (by norm_num)]
    simp only [List.take, List.drop, List.length]
    rcases h1 : fromStrRadix16 [a, b] with _ | v1 <;>
      rcases h2 : fromStrRadix16 [c, d] with _ | v2 <;>
        rcases h3 : fromStrRadix16 [e, f] with _ | v3 <;>
          simp [h1, h2, h3, hexPairOk_iff_isSome]
  · rw [if_pos h6]
    simp [h6]

/-! ## Config resolution lemmas (claims C4, C6, C7) -/

theorem get_rgb_fallback_eq (gc : Option GlobalConfig) (args : Args) :
    get_rgb_fallback gc args
      = ((gc.bind (fun g => hexOk g.color)).orElse
          (fun _ => gc.bind globalTriple)).getD (args.red, args.green, args.blue) := by
  cases gc with
  | none => rfl
  | some g =>
    cases hc : g.color with
    | none =>
      cases hr : g.red <;> cases hg : g.green <;> cases hb : g.blue <;>
        simp [get_rgb_fallback, hexOk, globalTriple, hc, hr, hg, hb, Option.orElse]
    | some s =>
      cases hp : parse_hex_color s with
      | ok v =>
        simp [get_rgb_fallback, hexOk, hc, hp, Option.orElse, Except.toOption]
      | error e =>
        cases hr : g.red <;> cases hg : g.green <;> cases hb : g.blue <;>
          simp [get_rgb_fallback, hexOk, globalTriple, hc, hp, hr, hg, hb,
            Option.orElse, Except.toOption]

theorem get_rgb_eq_priority (zc : Option ZoneConfig) (gc : Option GlobalConfig)
    (args : Args) : get_rgb zc gc args = rgbPriority zc gc args := by
  cases zc with
  | none =>
    rw [show get_rgb none gc args = get_rgb_fallback gc args from rfl,
      get_rgb_fallback_eq]
    simp [rgbPriority, Option.orElse]
  | some zone =>
    cases hc : zone.color with
    | none =>
      cases hr : zone.red <;> cases hg : zone.green <;> cases hb : zone.blue <;>
        simp [get_rgb, rgbPriority, hexOk, zoneTriple, hc, hr, hg, hb,
          Option.orElse, get_rgb_fallback_eq]
    | some s =>
      cases hp : parse_hex_color s with
      | ok v =>
        simp [get_rgb, rgbPriority, hexOk, hc, hp, Option.orElse, Except.toOption]
      | error e =>
        cases hr : zone.red <;> cases hg : zone.green <;> cases hb : zone.blue <;>
          simp [get_rgb, rgbPriority, hexOk, zoneTriple, hc, hp, hr, hg, hb,
            Option.orElse, Except.toOption, get_rgb_fallback_eq]

theorem enabled_getD_true {zc : ZoneConfig} (hen : ¬ zc.enabled = some false) :
    zc.enabled.getD true = true := by
  cases h : zc.enabled with
  | none => rfl
  | some b =>
    cases b with
    | false => exact absurd h hen
    | true => rfl

theorem set_fan_color_ok (fan r g b : ℕ) (br : ℚ) (hfan : fan < FAN_COUNT)
    (hb0 : 0 ≤ br) (hb1 : br ≤ 100) :
    set_fan_color fan r g b br = .ok (Action.write
        ([REPORT_ID, SET_COLOR_CMD_BASE + fan]
          ++ (List.replicate LEDS_PER_FAN
            [scaleChannel r (fl32 (br / 100)), scaleChannel b (fl32 (br / 100)),
              scaleChannel g (fl32 (br / 100))]).flatten)
      :: Action.sleepMs 100
      :: (confirm_cmds.map (fun c => [Action.sendFeatureReport c, Action.sleepMs 50])).flatten) := by
  unfold set_fan_color
  rw [if_neg (not_le.mpr hfan), if_neg (by push_neg; exact ⟨hb0, hb1⟩)]
  show Except.ok ([Action.write (resizeList ([REPORT_ID, SET_COLOR_CMD_BASE + fan]
      ++ (List.replicate LEDS_PER_FAN
        [scaleChannel r (fl32 (br / 100)), scaleChannel b (fl32 (br / 100)),
          scaleChannel g (fl32 (br / 100))]).flatten) COLOR_BUFFER_SIZE 0x00),
      Action.sleepMs 100]
    ++ (confirm_cmds.map (fun c => [Action.sendFeatureReport c, Action.sleepMs 50])).flatten)
    = _
  have hlen : ([REPORT_ID, SET_COLOR_CMD_BASE + fan]
      ++ (List.replicate LEDS_PER_FAN
        [scaleChannel r (fl32 (br / 100)), scaleChannel b (fl32 (br / 100)),
          scaleChannel g (fl32 (br / 100))]).flatten).length = COLOR_BUFFER_SIZE :=
    colorFrame_length _ _ _ _
  rw [resizeList_of_length_eq hlen]
  rfl

theorem set_fan_speed_ok (fan speed : ℕ) (mc : ModelConfig) (hfan : fan < FAN_COUNT)
    (h1 : mc.min_rpm ≤ speed) (h2 : speed ≤ mc.max_rpm) :
    set_fan_speed fan speed mc = .ok
      [Action.write [REPORT_ID, SET_SPEED_CMD, mc.mode_byte, 0x10 * 2 ^ fan % 256],
       Action.sleepMs 200,
       Action.write [REPORT_ID, (fan + 32) % 256, 0x00, speed_byte mc speed],
       Action.sleepMs 100] := by
  unfold set_fan_speed
  rw [if_neg (not_le.mpr hfan), if_neg (by push_neg; exact ⟨h1, h2⟩)]

/-! ## Claim theorems -/

/-- C1 (counterexample): the claim says the scaled channel equals
`round(channel × brightness/100)` clamped to 255.  At channel 255 and
brightness 50 the code computes `255 × 0.5 = 127.5` and the `as u8` cast
truncates it to 127, while the claimed rounding gives 128. -/
theorem c1_counterexample :
    scaleChannel 255 (fl32 ((50 : ℚ) / 100)) = 127
    ∧ specScaledColor 255 50 = 128
    ∧ (127 : ℕ) ≠ 128 :=
  ⟨scaleChannel_255_half, specScaledColor_255_50, by decide⟩

/-- C1 (amended): for every channel ≤ 255 the scaled channel value used in
a color frame is the f32 product `channel × (brightness/100)` truncated
toward zero (not rounded) and clamped to 255; brightness 0 yields 0 for
every channel, brightness 100 yields exactly the channel, and the scaled
value never exceeds 255. -/
theorem c1_scaled_channel_truncates (c : ℕ) (b : ℚ) (hc : c ≤ 255) :
    scaleChannel c (fl32 (b / 100)) ≤ 255
    ∧ (b = 0 → scaleChannel c (fl32 (b / 100)) = 0)
    ∧ (b = 100 → scaleChannel c (fl32 (b / 100)) = c) := by
  refine ⟨scaleChannel_le_255 _ _, ?_, ?_⟩
  · rintro rfl
    exact scaleChannel_brightness_zero c
  · rintro rfl
    exact scaleChannel_brightness_full c hc

/-- Witness for C1 at channel 200, brightness 50. -/
theorem c1_scaled_channel_truncates_witness :
    (200 : ℕ) ≤ 255
    ∧ (scaleChannel 200 (fl32 ((50 : ℚ) / 100)) ≤ 255
      ∧ ((50 : ℚ) = 0 → scaleChannel 200 (fl32 ((50 : ℚ) / 100)) = 0)
      ∧ ((50 : ℚ) = 100 → scaleChannel 200 (fl32 ((50 : ℚ) / 100)) = 200)) :=
  ⟨by decide, c1_scaled_channel_truncates 200 50 (by decide)⟩

/-- C2: for a valid zone and brightness, the color frame is the 2-byte
header `[0xE0, 0x30+zone]` followed by 117 repetitions of the scaled
`(r, b, g)` triple, 353 bytes in total (the zero `resize` pads nothing);
an out-of-range zone is rejected with `InvalidFan` and an out-of-range
brightness with `InvalidBrightness`, each carrying the offending value,
and nothing is sent in either case. -/
theorem c2_color_frame_layout (fan r g b : ℕ) (br : ℚ) :
    (fan < FAN_COUNT → 0 ≤ br → br ≤ 100 →
      ∃ rest, set_fan_color fan r g b br = .ok (Action.write
          ([REPORT_ID, SET_COLOR_CMD_BASE + fan]
            ++ (List.replicate LEDS_PER_FAN
              [scaleChannel r (fl32 (br / 100)), scaleChannel b (fl32 (br / 100)),
                scaleChannel g (fl32 (br / 100))]).flatten) :: rest)
        ∧ ([REPORT_ID, SET_COLOR_CMD_BASE + fan]
            ++ (List.replicate LEDS_PER_FAN
              [scaleChannel r (fl32 (br / 100)), scaleChannel b (fl32 (br / 100)),
                scaleChannel g (fl32 (br / 100))]).flatten).length = 353)
    ∧ (FAN_COUNT ≤ fan → set_fan_color fan r g b br = .error (.InvalidFan fan))
    ∧ (fan < FAN_COUNT → (br < 0 ∨ 100 < br) →
        set_fan_color fan r g b br = .error (.InvalidBrightness br)) := by
  refine ⟨?_, ?_, ?_⟩
  · intro hfan hb0 hb1
    exact ⟨Action.sleepMs 100 ::
      (confirm_cmds.map (fun c => [Action.sendFeatureReport c, Action.sleepMs 50])).flatten,
      set_fan_color_ok fan r g b br hfan hb0 hb1, colorFrame_length _ _ _ _⟩
  · intro hfan
    unfold set_fan_color
    rw [if_pos hfan]
  · intro hfan hbr
    unfold set_fan_color
    rw [if_neg (not_le.mpr hfan), if_pos hbr]

/-- Witness for C2 at zone 2, color (10, 20, 30), brightness 50. -/
theorem c2_color_frame_layout_witness :
    (2 : ℕ) < FAN_COUNT ∧ (0 : ℚ) ≤ 50 ∧ (50 : ℚ) ≤ 100
    ∧ ((2 < FAN_COUNT → (0 : ℚ) ≤ 50 → (50 : ℚ) ≤ 100 →
      ∃ rest, set_fan_color 2 10 20 30 50 = .ok (Action.write
          ([REPORT_ID, SET_COLOR_CMD_BASE + 2]
            ++ (List.replicate LEDS_PER_FAN
              [scaleChannel 10 (fl32 ((50 : ℚ) / 100)), scaleChannel 30 (fl32 ((50 : ℚ) / 100)),
                scaleChannel 20 (fl32 ((50 : ℚ) / 100))]).flatten) :: rest)
        ∧ ([REPORT_ID, SET_COLOR_CMD_BASE + 2]
            ++ (List.replicate LEDS_PER_FAN
              [scaleChannel 10 (fl32 ((50 : ℚ) / 100)), scaleChannel 30 (fl32 ((50 : ℚ) / 100)),
                scaleChannel 20 (fl32 ((50 : ℚ) / 100))]).flatten).length = 353)
    ∧ (FAN_COUNT ≤ 2 → set_fan_color 2 10 20 30 50 = .error (.InvalidFan 2))
    ∧ (2 < FAN_COUNT → ((50 : ℚ) < 0 ∨ 100 < (50 : ℚ)) →
        set_fan_color 2 10 20 30 50 = .error (.InvalidBrightness 50))) :=
  ⟨by decide, by decide, by decide, c2_color_frame_layout 2 10 20 30 50⟩

/-- C3: with a calibration satisfying `min_rpm < max_rpm` and a valid zone,
requesting exactly `min_rpm` encodes to byte 1 and exactly `max_rpm` to
byte 255; every in-range request encodes to a byte in `[1, 255]` (never 0)
and is sent as the manual-mode write followed by the speed frame; every
out-of-range request is rejected with `InvalidSpeed` carrying the request
and both bounds, sending nothing — the encoder never silently clamps. -/
theorem c3_speed_encoding (mc : ModelConfig) (fan speed : ℕ)
    (hmin : mc.min_rpm < mc.max_rpm) (hfan : fan < FAN_COUNT) :
    speed_byte mc mc.min_rpm = 1
    ∧ speed_byte mc mc.max_rpm = 255
    ∧ (mc.min_rpm ≤ speed → speed ≤ mc.max_rpm →
        1 ≤ speed_byte mc speed ∧ speed_byte mc speed ≤ 255
        ∧ set_fan_speed fan speed mc = .ok
            [Action.write [REPORT_ID, SET_SPEED_CMD, mc.mode_byte, 0x10 * 2 ^ fan % 256],
             Action.sleepMs 200,
             Action.write [REPORT_ID, (fan + 32) % 256, 0x00, speed_byte mc speed],
             Action.sleepMs 100])
    ∧ ((speed < mc.min_rpm ∨ mc.max_rpm < speed) →
        set_fan_speed fan speed mc = .error (.InvalidSpeed speed mc.min_rpm mc.max_rpm)) := by
  refine ⟨speed_byte_at_min mc hmin, speed_byte_at_max mc hmin, ?_, ?_⟩
  · intro h1 h2
    refine ⟨(speed_byte_bounds mc speed hmin h2).1, (speed_byte_bounds mc speed hmin h2).2, ?_⟩
    unfold set_fan_speed
    rw [if_neg (not_le.mpr hfan), if_neg (by push_neg; exact ⟨h1, h2⟩)]
  · intro h
    unfold set_fan_speed
    rw [if_neg (not_le.mpr hfan), if_pos h]

/-- Witness for C3 with the default calibration (800-1900 RPM), zone 0,
speed 1350. -/
theorem c3_speed_encoding_witness :
    (get_model_config 0x7750).min_rpm < (get_model_config 0x7750).max_rpm
    ∧ (0 : ℕ) < FAN_COUNT
    ∧ (speed_byte (get_model_config 0x7750) (get_model_config 0x7750).min_rpm = 1
    ∧ speed_byte (get_model_config 0x7750) (get_model_config 0x7750).max_rpm = 255
    ∧ ((get_model_config 0x7750).min_rpm ≤ 1350 → 1350 ≤ (get_model_config 0x7750).max_rpm →
        1 ≤ speed_byte (get_model_config 0x7750) 1350
        ∧ speed_byte (get_model_config 0x7750) 1350 ≤ 255
        ∧ set_fan_speed 0 1350 (get_model_config 0x7750) = .ok
            [Action.write [REPORT_ID, SET_SPEED_CMD, (get_model_config 0x7750).mode_byte,
               0x10 * 2 ^ 0 % 256],
             Action.sleepMs 200,
             Action.write [REPORT_ID, (0 + 32) % 256, 0x00,
               speed_byte (get_model_config 0x7750) 1350],
             Action.sleepMs 100])
    ∧ ((1350 < (get_model_config 0x7750).min_rpm ∨ (get_model_config 0x7750).max_rpm < 1350) →
        set_fan_speed 0 1350 (get_model_config 0x7750)
          = .error (.InvalidSpeed 1350 (get_model_config 0x7750).min_rpm
              (get_model_config 0x7750).max_rpm))) :=
  ⟨by decide, by decide, c3_speed_encoding (get_model_config 0x7750) 0 1350 (by decide) (by decide)⟩

/-- C4 (counterexample): the claim says a present but malformed zone hex
string makes resolution fail with an error.  `get_rgb` cannot fail: with
zone color `ZZZZZZ` and zone triple (1,2,3) it returns (1,2,3), and with
only the malformed hex present it falls through to the CLI triple. -/
theorem c4_counterexample :
    get_rgb (some ⟨none, some ['Z', 'Z', 'Z', 'Z', 'Z', 'Z'], some 1, some 2, some 3,
        none, none, none⟩) none ⟨255, 5, 5, 100, 1350, FanMode.Fixed⟩ = (1, 2, 3)
    ∧ get_rgb (some ⟨none, some ['Z', 'Z', 'Z', 'Z', 'Z', 'Z'], none, none, none,
        none, none, none⟩) none ⟨255, 5, 5, 100, 1350, FanMode.Fixed⟩ = (255, 5, 5) :=
  ⟨rfl, rfl⟩

/-- C4 (amended): `get_rgb` never fails; a present but unparsable hex
string is skipped, and the color is chosen as a single atomic unit in
priority order zone hex (if it parses), zone RGB triple, global hex (if it
parses), global RGB triple, CLI RGB triple. -/
theorem c4_priority_with_skip :
    ∀ (zc : Option ZoneConfig) (gc : Option GlobalConfig) (args : Args),
      get_rgb zc gc args = rgbPriority zc gc args :=
  get_rgb_eq_priority

/-- C5: with `min_rpm < max_rpm` (u16 calibration values),
`map_temp_to_rpm` is monotonic non-decreasing in the temperature, returns
`min_rpm` for every temperature ≤ 60, `max_rpm` for every temperature
≥ 95, and in between is the f32 linear interpolation rounded to the
nearest RPM. -/
theorem c5_map_temp_properties (mn mx : ℕ) (hmn : mn < mx) (hmx : mx ≤ 65535) :
    (∀ t₁ t₂ : ℚ, t₁ ≤ t₂ → map_temp_to_rpm t₁ mn mx ≤ map_temp_to_rpm t₂ mn mx)
    ∧ (∀ t : ℚ, t ≤ 60 → map_temp_to_rpm t mn mx = mn)
    ∧ (∀ t : ℚ, 95 ≤ t → map_temp_to_rpm t mn mx = mx)
    ∧ (∀ t : ℚ, 60 < t → t < 95 → map_temp_to_rpm t mn mx
        = intAsU16 (rustRound (fl32 ((mn : ℚ)
          + fl32 (fl32 (fl32 (t - 60) / (95 - 60)) * ((mx - mn : ℕ) : ℚ)))))) :=
  ⟨fun _ _ h => map_temp_mono mn mx hmn hmx h,
   fun _ h => map_temp_low mn mx h,
   fun _ h => map_temp_high mn mx h,
   fun _ h1 h2 => map_temp_mid mn mx h1 h2⟩

/-- Witness for C5 with the default calibration bounds 800 and 1900. -/
theorem c5_map_temp_properties_witness :
    (800 : ℕ) < 1900 ∧ (1900 : ℕ) ≤ 65535
    ∧ ((∀ t₁ t₂ : ℚ, t₁ ≤ t₂ → map_temp_to_rpm t₁ 800 1900 ≤ map_temp_to_rpm t₂ 800 1900)
    ∧ (∀ t : ℚ, t ≤ 60 → map_temp_to_rpm t 800 1900 = 800)
    ∧ (∀ t : ℚ, 95 ≤ t → map_temp_to_rpm t 800 1900 = 1900)
    ∧ (∀ t : ℚ, 60 < t → t < 95 → map_temp_to_rpm t 800 1900
        = intAsU16 (rustRound (fl32 ((800 : ℚ)
          + fl32 (fl32 (fl32 (t - 60) / (95 - 60)) * ((1900 - 800 : ℕ) : ℚ))))))) :=
  ⟨by decide, by decide, c5_map_temp_properties 800 1900 (by decide) (by decide)⟩

/-- C6: a zone whose config has `enabled = false` resolves to exactly
color (0,0,0), brightness 0, speed `min_rpm` from the calibration and mode
`Fixed`, irrespective of every other zone, global, or CLI field. -/
theorem c6_disabled_zone (zc : ZoneConfig) (gc : Option GlobalConfig) (args : Args)
    (mc : ModelConfig) (z : ℕ) (h : zc.enabled = some false) :
    get_effective_settings (some zc) gc args mc z
      = ⟨0, 0, 0, 0, mc.min_rpm, FanMode.Fixed⟩ := by
  unfold get_effective_settings
  simp [h]

/-- Witness for C6: a disabled zone whose every other field is set to a
conflicting value still resolves to the forced settings. -/
theorem c6_disabled_zone_witness :
    get_effective_settings
      (some ⟨some false, some ['F', 'F', '0', '0', '0', '0'], some 9, some 8, some 7,
        some 77, some 1800, some FanMode.QuietCpu⟩)
      (some ⟨some ['0', '0', 'F', 'F', '0', '0'], some 1, some 2, some 3, some 40,
        some 1200, some FanMode.QuietGpu, none⟩)
      ⟨255, 5, 5, 100, 1350, FanMode.Fixed⟩ ⟨49, 48, 800, 1900⟩ 2
      = ⟨0, 0, 0, 0, 800, FanMode.Fixed⟩ :=
  c6_disabled_zone _ _ _ _ 2 rfl

/-- C7: for an enabled zone, brightness, speed and mode each resolve
independently with precedence zone > global > CLI: a present zone-level
field is returned whatever its value and whatever the global or CLI
values; an absent zone-level field with a present global field yields the
global value. -/
theorem c7_field_precedence (zc : ZoneConfig) (gc : Option GlobalConfig) (args : Args)
    (mc : ModelConfig) (z : ℕ) (hen : ¬ zc.enabled = some false) :
    (∀ q, zc.brightness = some q →
      (get_effective_settings (some zc) gc args mc z).brightness = q)
    ∧ (zc.brightness = none → ∀ g, gc = some g → ∀ q, g.brightness = some q →
        (get_effective_settings (some zc) gc args mc z).brightness = q)
    ∧ (∀ v, zc.speed = some v →
        (get_effective_settings (some zc) gc args mc z).speed = v)
    ∧ (zc.speed = none → ∀ g, gc = some g → ∀ v, g.speed = some v →
        (get_effective_settings (some zc) gc args mc z).speed = v)
    ∧ (∀ m, zc.mode = some m →
        (get_effective_settings (some zc) gc args mc z).mode = m)
    ∧ (zc.mode = none → ∀ g, gc = some g → ∀ m, g.mode = some m →
        (get_effective_settings (some zc) gc args mc z).mode = m) := by
  have he := enabled_getD_true hen
  refine ⟨?_, ?_, ?_, ?_, ?_, ?_⟩
  · intro q hq
    unfold get_effective_settings
    simp [he, get_field, hq, Option.orElse]
  · intro hq g hg q hgq
    unfold get_effective_settings
    simp [he, get_field, hq, hg, hgq, Option.orElse]
  · intro v hv
    unfold get_effective_settings
    simp [he, get_field, hv, Option.orElse]
  · intro hv g hg v hgv
    unfold get_effective_settings
    simp [he, get_field, hv, hg, hgv, Option.orElse]
  · intro m hm
    unfold get_effective_settings
    simp [he, get_field, hm, Option.orElse]
  · intro hm g hg m hgm
    unfold get_effective_settings
    simp [he, get_field, hm, hg, hgm, Option.orElse]

/-- Witness for C7: a zone with its own brightness but no speed or mode,
over a global config providing speed and mode. -/
theorem c7_field_precedence_witness :
    (get_effective_settings
      (some ⟨some true, none, none, none, none, some 30, none, none⟩)
      (some ⟨none, none, none, none, some 80, some 1500, some FanMode.QuietGpu, none⟩)
      ⟨255, 5, 5, 100, 1350, FanMode.Fixed⟩ ⟨49, 48, 800, 1900⟩ 1).brightness = 30
    ∧ (get_effective_settings
      (some ⟨some true, none, none, none, none, some 30, none, none⟩)
      (some ⟨none, none, none, none, some 80, some 1500, some FanMode.QuietGpu, none⟩)
      ⟨255, 5, 5, 100, 1350, FanMode.Fixed⟩ ⟨49, 48, 800, 1900⟩ 1).speed = 1500
    ∧ (get_effective_settings
      (some ⟨some true, none, none, none, none, some 30, none, none⟩)
      (some ⟨none, none, none, none, some 80, some 1500, some FanMode.QuietGpu, none⟩)
      ⟨255, 5, 5, 100, 1350, FanMode.Fixed⟩ ⟨49, 48, 800, 1900⟩ 1).mode = FanMode.QuietGpu :=
  ⟨(c7_field_precedence _ _ _ _ 1 (by decide)).1 30 rfl,
   (c7_field_precedence _ _ _ _ 1 (by decide)).2.2.2.1 rfl _ rfl 1500 rfl,
   (c7_field_precedence _ _ _ _ 1 (by decide)).2.2.2.2.2 rfl _ rfl FanMode.QuietGpu rfl⟩

/-- C8 (counterexample): the claim says parsing succeeds iff the input
after stripping one leading `#` is exactly 6 hex digits.
`+12345` succeeds (`from_str_radix` accepts a leading `+`) though it is
not 6 hex digits, and `##A1B2C3` succeeds though stripping a single `#`
leaves `#A1B2C3`, which is not 6 hex digits. -/
theorem c8_counterexample :
    parse_hex_color ['+', '1', '2', '3', '4', '5'] = .ok (0x01, 0x23, 0x45)
    ∧ ¬ (∀ c ∈ ['+', '1', '2', '3', '4', '5'], (hexDigit c).isSome)
    ∧ parse_hex_color ['#', '#', 'A', '1', 'B', '2', 'C', '3'] = .ok (0xA1, 0xB2, 0xC3)
    ∧ ¬ (∀ c ∈ ['#', 'A', '1', 'B', '2', 'C', '3'], (hexDigit c).isSome) :=
  ⟨rfl, by decide, rfl, by decide⟩

/-- C8 (amended): `#A1B2C3` parses to (0xA1, 0xB2, 0xC3); `ZZZZZZ` and
`ABC` fail with `InvalidHexColor`; parsing succeeds iff, after stripping
all leading `#` characters, exactly 6 characters remain and each of the
three 2-character groups is two hex digits or a `+` followed by one hex
digit; and on an all-hex-digit input the three bytes are the three
2-digit groups. -/
theorem c8_parse_hex_characterization :
    parse_hex_color ['#', 'A', '1', 'B', '2', 'C', '3'] = .ok (0xA1, 0xB2, 0xC3)
    ∧ parse_hex_color ['Z', 'Z', 'Z', 'Z', 'Z', 'Z']
        = .error (.InvalidHexColor ['Z', 'Z', 'Z', 'Z', 'Z', 'Z'])
    ∧ parse_hex_color ['A', 'B', 'C'] = .error (.InvalidHexColor ['A', 'B', 'C'])
    ∧ (∀ s : List Char, (∃ v, parse_hex_color s = .ok v) ↔
        ((s.dropWhile (fun c => c = '#')).length = 6
          ∧ hexPairOk ((s.dropWhile (fun c => c = '#')).take 2)
          ∧ hexPairOk (((s.dropWhile (fun c => c = '#')).drop 2).take 2)
          ∧ hexPairOk (((s.dropWhile (fun c => c = '#')).drop 4).take 2)))
    ∧ (∀ (a b c d e f : Char) (da db dc dd de df : ℕ),
        hexDigit a = some da → hexDigit b = some db → hexDigit c = some dc →
        hexDigit d = some dd → hexDigit e = some de → hexDigit f = some df →
        ¬ a = '#' →
        parse_hex_color [a, b, c, d, e, f]
          = .ok (da * 16 + db, dc * 16 + dd, de * 16 + df)) :=
  ⟨rfl, rfl, rfl, parse_hex_color_ok_iff,
   fun _ _ _ _ _ _ _ _ _ _ _ _ ha hb hc hd he hf hne =>
     parse_hex_color_six ha hb hc hd he hf hne⟩

/-- Witness for C8's byte-value clause on the input `A1B2C3`. -/
theorem c8_parse_hex_characterization_witness :
    parse_hex_color ['A', '1', 'B', '2', 'C', '3']
      = .ok (10 * 16 + 1, 11 * 16 + 2, 12 * 16 + 3) :=
  c8_parse_hex_characterization.2.2.2.2 'A' '1' 'B' '2' 'C' '3' 10 1 11 2 12 3
    rfl rfl rfl rfl rfl rfl (by decide)

/-- C10: `parse_hex_color` strips every leading `#`, not just one: for
every 6-hex-digit string `s` and every n, prefixing n `#` characters
parses successfully and gives the same triple as `s` itself. -/
theorem c10_hash_stripping (s : List Char) (h6 : s.length = 6)
    (hhex : ∀ c ∈ s, (hexDigit c).isSome) (n : ℕ) :
    parse_hex_color (List.replicate n '#' ++ s) = parse_hex_color s
    ∧ ∃ v, parse_hex_color s = .ok v := by
  constructor
  · unfold parse_hex_color
    rw [dropWhile_hash_replicate]
  · obtain ⟨a, b, c, d, e, f, rfl⟩ := exists_six h6
    have ha := hhex a (by simp)
    have hb := hhex b (by simp)
    have hc := hhex c (by simp)
    have hd := hhex d (by simp)
    have he := hhex e (by simp)
    have hf := hhex f (by simp)
    rw [Option.isSome_iff_exists] at ha hb hc hd he hf
    obtain ⟨da, ha⟩ := ha
    obtain ⟨db, hb⟩ := hb
    obtain ⟨dc, hc⟩ := hc
    obtain ⟨dd, hd⟩ := hd
    obtain ⟨de, he⟩ := he
    obtain ⟨df, hf⟩ := hf
    have hne : ¬ a = '#' := by
      intro hp
      rw [hp, hexDigit_hash] at ha
      exact Option.noConfusion ha
    exact ⟨_, parse_hex_color_six ha hb hc hd he hf hne⟩

/-- Witness for C10 on `##A1B2C3`. -/
theorem c10_hash_stripping_witness :
    (['A', '1', 'B', '2', 'C', '3'] : List Char).length = 6
    ∧ (∀ c ∈ (['A', '1', 'B', '2', 'C', '3'] : List Char), (hexDigit c).isSome)
    ∧ (parse_hex_color (List.replicate 2 '#' ++ ['A', '1', 'B', '2', 'C', '3'])
        = parse_hex_color ['A', '1', 'B', '2', 'C', '3']
      ∧ ∃ v, parse_hex_color ['A', '1', 'B', '2', 'C', '3'] = .ok v) :=
  ⟨by decide, by decide, c10_hash_stripping ['A', '1', 'B', '2', 'C', '3'] rfl (by decide) 2⟩

/-! ## Run structure lemmas (claim C9) -/

theorem colorPhase_foldl (cfg : Option Config) (args : Args) (mc : ModelConfig)
    (l : List ℕ) (acc : List Action) (acts : ℕ → List Action)
    (h : ∀ z ∈ l, set_fan_color z (effective_for cfg args mc z).r
        (effective_for cfg args mc z).g (effective_for cfg args mc z).b
        (effective_for cfg args mc z).brightness = .ok (acts z)) :
    l.foldlM (fun acc zone_num => do
        let s := effective_for cfg args mc zone_num
        let a ← set_fan_color zone_num s.r s.g s.b s.brightness
        pure (acc ++ a)) acc = .ok (acc ++ (l.map acts).flatten) := by
  induction l generalizing acc with
  | nil =>
    simp only [List.foldlM_nil, List.map_nil, List.flatten_nil, List.append_nil]
    rfl
  | cons z t ih =>
    rw [List.foldlM_cons]
    have hz := h z (List.mem_cons_self z t)
    simp only [hz]
    rw [show ((Except.ok (acts z) : Except FanControlError (List Action)) >>= fun a =>
        pure (acc ++ a)) = (pure (acc ++ acts z) : Except FanControlError (List Action))
      from rfl]
    rw [pure_bind]
    rw [ih (acc ++ acts z) (fun z' hz' => h z' (List.mem_cons_of_mem _ hz'))]
    simp

theorem speedPhase_foldl (cfg : Option Config) (args : Args) (mc : ModelConfig)
    (l : List ℕ) (acc : List Action) (acts : ℕ → List Action)
    (h : ∀ z ∈ l, (effective_for cfg args mc z).mode = FanMode.Fixed →
        set_fan_speed z (effective_for cfg args mc z).speed mc = .ok (acts z)) :
    l.foldlM (fun acc zone_num => do
        let s := effective_for cfg args mc zone_num
        if s.mode = FanMode.Fixed then do
          let a ← set_fan_speed zone_num s.speed mc
          pure (acc ++ a)
        else pure acc) acc
      = .ok (acc ++ ((l.filter (fun z =>
          (effective_for cfg args mc z).mode = FanMode.Fixed)).map acts).flatten) := by
  induction l generalizing acc with
  | nil =>
    simp only [List.foldlM_nil, List.filter_nil, List.map_nil, List.flatten_nil,
      List.append_nil]
    rfl
  | cons z t ih =>
    rw [List.foldlM_cons]
    by_cases hm : (effective_for cfg args mc z).mode = FanMode.Fixed
    · have hz := h z (List.mem_cons_self z t) hm
      simp only [if_pos hm, hz, List.filter_cons]
      rw [show ((Except.ok (acts z) : Except FanControlError (List Action)) >>= fun a =>
          pure (acc ++ a)) = (pure (acc ++ acts z) : Except FanControlError (List Action))
        from rfl]
      rw [pure_bind]
      rw [ih (acc ++ acts z) (fun z' hz' hm' => h z' (List.mem_cons_of_mem _ hz') hm')]
      simp [hm]
    · simp only [if_neg hm, List.filter_cons]
      rw [pure_bind]
      rw [ih acc (fun z' hz' hm' => h z' (List.mem_cons_of_mem _ hz') hm')]
      simp [hm]

theorem dynamicZones_mem (cfg : Option Config) (args : Args) (mc : ModelConfig)
    (z : ℕ) (s : EffectiveZoneSettings) :
    (z, s) ∈ dynamicZones cfg args mc ↔
      z < FAN_COUNT ∧ s = effective_for cfg args mc z
        ∧ (s.mode = FanMode.QuietCpu ∨ s.mode = FanMode.QuietGpu) := by
  unfold dynamicZones
  simp only [List.mem_filterMap, List.mem_range]
  constructor
  · rintro ⟨a, ha, hfa⟩
    split_ifs at hfa with hq
    · simp only [Option.some.injEq, Prod.mk.injEq] at hfa
      obtain ⟨rfl, rfl⟩ := hfa
      exact ⟨ha, rfl, hq⟩
  · rintro ⟨hz, rfl, hq⟩
    exact ⟨z, hz, by rw [if_pos hq]⟩

theorem loopFold_ok (mc : ModelConfig) (cpu gpu : ℚ)
    (hmn : mc.min_rpm < mc.max_rpm) (hmx : mc.max_rpm ≤ 65535) :
    ∀ (dz : List (ℕ × EffectiveZoneSettings)), (∀ p ∈ dz, p.1 < FAN_COUNT) →
      ∀ acc, ∃ acts, dz.foldlM (fun acc zs => do
        let temp := match zs.2.mode with
          | FanMode.QuietCpu => cpu
          | FanMode.QuietGpu => gpu
          | FanMode.Fixed => cpu
        let rpm := map_temp_to_rpm temp mc.min_rpm mc.max_rpm
        let a ← set_fan_speed zs.1 rpm mc
        pure (acc ++ a)) acc = .ok acts := by
  intro dz
  induction dz with
  | nil =>
    intro _ acc
    exact ⟨acc, rfl⟩
  | cons p t ih =>
    intro hz acc
    have h1 := hz p (List.mem_cons_self p t)
    have hbnd := map_temp_bounds (t := match p.2.mode with
      | FanMode.QuietCpu => cpu
      | FanMode.QuietGpu => gpu
      | FanMode.Fixed => cpu) mc.min_rpm mc.max_rpm hmn hmx
    have hok := set_fan_speed_ok p.1 (map_temp_to_rpm (match p.2.mode with
      | FanMode.QuietCpu => cpu
      | FanMode.QuietGpu => gpu
      | FanMode.Fixed => cpu) mc.min_rpm mc.max_rpm) mc h1 hbnd.1 hbnd.2
    obtain ⟨acts, hacts⟩ := ih (fun q hq => hz q (List.mem_cons_of_mem _ hq))
      (acc ++ [Action.write [REPORT_ID, SET_SPEED_CMD, mc.mode_byte, 0x10 * 2 ^ p.1 % 256],
        Action.sleepMs 200,
        Action.write [REPORT_ID, (p.1 + 32) % 256, 0x00, speed_byte mc
          (map_temp_to_rpm (match p.2.mode with
            | FanMode.QuietCpu => cpu
            | FanMode.QuietGpu => gpu
            | FanMode.Fixed => cpu) mc.min_rpm mc.max_rpm)],
        Action.sleepMs 100])
    refine ⟨acts, ?_⟩
    rw [List.foldlM_cons]
    simp only [hok]
    exact hacts

theorem loopIteration_ok (dz : List (ℕ × EffectiveZoneSettings)) (mc : ModelConfig)
    (cpu gpu : ℚ) (hz : ∀ p ∈ dz, p.1 < FAN_COUNT)
    (hmn : mc.min_rpm < mc.max_rpm) (hmx : mc.max_rpm ≤ 65535) :
    ∃ acts, loopIteration dz mc cpu gpu = .ok acts := by
  unfold loopIteration
  exact loopFold_ok mc cpu gpu hmn hmx dz hz []

theorem runLoop_ok (dz : List (ℕ × EffectiveZoneSettings)) (mc : ModelConfig)
    (cpuTemps gpuTemps : ℕ → ℚ) (hz : ∀ p ∈ dz, p.1 < FAN_COUNT)
    (hmn : mc.min_rpm < mc.max_rpm) (hmx : mc.max_rpm ≤ 65535) :
    ∀ fuel i, ∃ acts, runLoop dz mc cpuTemps gpuTemps fuel i = .ok acts := by
  intro fuel
  induction fuel with
  | zero =>
    intro i
    exact ⟨[], rfl⟩
  | succ n ih =>
    intro i
    obtain ⟨a1, h1⟩ := loopIteration_ok dz mc (cpuTemps i) (gpuTemps i) hz hmn hmx
    obtain ⟨a2, h2⟩ := ih (i + 1)
    refine ⟨a1 ++ [Action.sleepMs 5000] ++ a2, ?_⟩
    rw [runLoop]
    simp only [h1, h2]
    rfl

theorem exceptOk_bind {α β : Type} (a : α) (f : α → Except FanControlError β) :
    (Except.ok a >>= f) = f a := rfl

/-- C9: a run first sends one color command per zone in zone order, then
one speed command per Fixed-mode zone in zone order; the reactive set is
exactly the QuietCpu/QuietGpu zones; a run with no reactive zone completes
with exit code 0 (the `true` flag) after those two phases for every fuel
bound, while a run with a reactive zone never completes (the flag is
`false` for every fuel bound) and appends loop iterations, each of which
reads the zone's sensor, maps the temperature to an in-range RPM, sends
the speed command, and ends with the 5-second wait; loop iterations never
fail on their own (only a propagated transport or sensor failure, outside
this model, can leave the loop). -/
theorem c9_run_structure (cfg : Option Config) (args : Args) (mc : ModelConfig)
    (cpuTemps gpuTemps : ℕ → ℚ) (colorActs speedActs : ℕ → List Action)
    (hcolor : ∀ z ∈ List.range FAN_COUNT,
        set_fan_color z (effective_for cfg args mc z).r (effective_for cfg args mc z).g
          (effective_for cfg args mc z).b (effective_for cfg args mc z).brightness
          = .ok (colorActs z))
    (hspeed : ∀ z ∈ List.range FAN_COUNT,
        (effective_for cfg args mc z).mode = FanMode.Fixed →
        set_fan_speed z (effective_for cfg args mc z).speed mc = .ok (speedActs z))
    (hmn : mc.min_rpm < mc.max_rpm) (hmx : mc.max_rpm ≤ 65535) :
    (∀ z s, (z, s) ∈ dynamicZones cfg args mc ↔
        z < FAN_COUNT ∧ s = effective_for cfg args mc z
          ∧ (s.mode = FanMode.QuietCpu ∨ s.mode = FanMode.QuietGpu))
    ∧ (dynamicZones cfg args mc = [] → ∀ fuel,
        runMain cfg args mc cpuTemps gpuTemps fuel = .ok
          (send_init ++ ((List.range FAN_COUNT).map colorActs).flatten
            ++ (((List.range FAN_COUNT).filter (fun z =>
                (effective_for cfg args mc z).mode = FanMode.Fixed)).map speedActs).flatten,
            true))
    ∧ (dynamicZones cfg args mc ≠ [] → ∀ fuel, ∃ loopActs,
        runMain cfg args mc cpuTemps gpuTemps fuel = .ok
          (send_init ++ ((List.range FAN_COUNT).map colorActs).flatten
            ++ (((List.range FAN_COUNT).filter (fun z =>
                (effective_for cfg args mc z).mode = FanMode.Fixed)).map speedActs).flatten
            ++ loopActs, false))
    ∧ (∀ cpu gpu, ∃ acts,
        loopIteration (dynamicZones cfg args mc) mc cpu gpu = .ok acts) := by
  have hcp : colorPhase cfg args mc
      = .ok (((List.range FAN_COUNT).map colorActs).flatten) := by
    unfold colorPhase
    have := colorPhase_foldl cfg args mc (List.range FAN_COUNT) [] colorActs hcolor
    simpa using this
  have hsp : speedPhase cfg args mc
      = .ok ((((List.range FAN_COUNT).filter (fun z =>
          (effective_for cfg args mc z).mode = FanMode.Fixed)).map speedActs).flatten) := by
    unfold speedPhase
    have := speedPhase_foldl cfg args mc (List.range FAN_COUNT) [] speedActs hspeed
    simpa using this
  have hzlt : ∀ p ∈ dynamicZones cfg args mc, p.1 < FAN_COUNT := by
    intro p hp
    exact ((dynamicZones_mem cfg args mc p.1 p.2).mp hp).1
  refine ⟨fun z s => dynamicZones_mem cfg args mc z s, ?_, ?_, ?_⟩
  · intro hdz fuel
    unfold runMain
    rw [hcp, exceptOk_bind, hsp, exceptOk_bind, hdz]
    rfl
  · intro hdz fuel
    obtain ⟨la, hla⟩ :=
      runLoop_ok (dynamicZones cfg args mc) mc cpuTemps gpuTemps hzlt hmn hmx fuel 0
    refine ⟨la, ?_⟩
    have hne : (dynamicZones cfg args mc).isEmpty = false := by
      cases h : dynamicZones cfg args mc with
      | nil => exact absurd h hdz
      | cons p t => rfl
    unfold runMain
    rw [hcp, exceptOk_bind, hsp, exceptOk_bind]
    simp only [hne, Bool.false_eq_true, if_false]
    rw [hla, exceptOk_bind]
  · intro cpu gpu
    exact loopIteration_ok _ mc cpu gpu hzlt hmn hmx

/-- Witness for C9: the CLI-default fixed-only run (no config file, color
(255,5,5), brightness 100, speed 1350, default calibration) completes with
exit code 0 after the color and speed phases, at fuel bound 3. -/
theorem c9_run_structure_witness :
    runMain none ⟨255, 5, 5, 100, 1350, FanMode.Fixed⟩ ⟨49, 48, 800, 1900⟩
      (fun _ => 50) (fun _ => 50) 3 = .ok
      (send_init ++ ((List.range FAN_COUNT).map (fun z => Action.write
          ([REPORT_ID, SET_COLOR_CMD_BASE + z]
            ++ (List.replicate LEDS_PER_FAN
              [scaleChannel 255 (fl32 ((100 : ℚ) / 100)), scaleChannel 5 (fl32 ((100 : ℚ) / 100)),
                scaleChannel 5 (fl32 ((100 : ℚ) / 100))]).flatten)
        :: Action.sleepMs 100
        :: (confirm_cmds.map (fun c => [Action.sendFeatureReport c, Action.sleepMs 50])).flatten)).flatten
        ++ (((List.range FAN_COUNT).filter (fun z =>
            (effective_for none ⟨255, 5, 5, 100, 1350, FanMode.Fixed⟩ ⟨49, 48, 800, 1900⟩ z).mode
              = FanMode.Fixed)).map (fun z =>
          [Action.write [REPORT_ID, SET_SPEED_CMD, 49, 0x10 * 2 ^ z % 256],
           Action.sleepMs 200,
           Action.write [REPORT_ID, (z + 32) % 256, 0x00, speed_byte ⟨49, 48, 800, 1900⟩ 1350],
           Action.sleepMs 100])).flatten, true) :=
  (c9_run_structure none ⟨255, 5, 5, 100, 1350, FanMode.Fixed⟩ ⟨49, 48, 800, 1900⟩
    (fun _ => 50) (fun _ => 50)
    (fun z => Action.write
        ([REPORT_ID, SET_COLOR_CMD_BASE + z]
          ++ (List.replicate LEDS_PER_FAN
            [scaleChannel 255 (fl32 ((100 : ℚ) / 100)), scaleChannel 5 (fl32 ((100 : ℚ) / 100)),
              scaleChannel 5 (fl32 ((100 : ℚ) / 100))]).flatten)
      :: Action.sleepMs 100
      :: (confirm_cmds.map (fun c => [Action.sendFeatureReport c, Action.sleepMs 50])).flatten)
    (fun z =>
      [Action.write [REPORT_ID, SET_SPEED_CMD, 49, 0x10 * 2 ^ z % 256],
       Action.sleepMs 200,
       Action.write [REPORT_ID, (z + 32) % 256, 0x00, speed_byte ⟨49, 48, 800, 1900⟩ 1350],
       Action.sleepMs 100])
    (fun z hz => set_fan_color_ok z 255 5 5 100 (List.mem_range.mp hz)
      (by decide) (by decide))
    (fun z hz _ => set_fan_speed_ok z 1350 ⟨49, 48, 800, 1900⟩ (List.mem_range.mp hz)
      (by decide) (by decide))
    (by decide) (by decide)).2.1 rfl 3

end LianLi
